import Mathlib

set_option autoImplicit false

/-! Verification development for the mcp-atlassian stdio server core.

The Python source is embedded shallowly: JSON-like runtime values become the

inductive `Val`; Python dicts become insertion-ordered association lists;
the process environment and the two HTTP service clients are treated as
external collaborators (parameters of the model); raised exceptions become
`Except.error` carrying `str(e)`. -/

/-- JSON-like Python values: the universe of messages, configurations and
command outcomes. -/
inductive Val where
  | str (s : String)
  | num (n : Int)
  | bool (b : Bool)
  | null
  | arr (xs : List Val)
  | obj (fields : List (String × Val))

/-- A Python dict with string keys, in insertion order. -/
abbrev PyDict := List (String × Val)

/-- `d[k]` lookup (first matching key). -/
def dget : PyDict → String → Option Val
  | [], _ => none
  | (k, v) :: rest, key => if k = key then some v else dget rest key

/-- `k in d`. -/
def dmem (d : PyDict) (key : String) : Bool :=
  (dget d key).isSome

/-- `d[k] = v`: update in place (keeping the key position) or append. -/
def dset : PyDict → String → Val → PyDict
  | [], key, v => [(key, v)]
  | (k, w) :: rest, key, v =>
    if k = key then (k, v) :: rest else (k, w) :: dset rest key v

/-- The removal part of `d.pop(k)`. -/
def dremove : PyDict → String → PyDict
  | [], _ => []
  | (k, w) :: rest, key => if k = key then rest else (k, w) :: dremove rest key

/-- Python truthiness of a value. -/
def pyTruthy : Val → Bool
  | .str s => !s.isEmpty
  | .num n => n != 0
  | .bool b => b
  | .null => false
  | .arr xs => !xs.isEmpty
  | .obj fs => !fs.isEmpty

/-- `d.get(k)` (`None` when the key is absent). -/
def pyGet (d : PyDict) (k : String) : Val :=
  (dget d k).getD .null

/-- `d.get(k, dflt)`. -/
def pyGetD (d : PyDict) (k : String) (dflt : Val) : Val :=
  (dget d k).getD dflt

mutual

/-- Python `repr()` of a value (used by `str()` on containers). -/
def pyRepr : Val → String
  | .str s => "\x27" ++ s ++ "\x27"
  | .num n => toString n
  | .bool true => "True"
  | .bool false => "False"
  | .null => "None"
  | .arr xs => "[" ++ pyReprList xs ++ "]"
  | .obj fs => "\x7b" ++ pyReprFields fs ++ "\x7d"

/-- Comma-separated `repr` of list elements. -/
def pyReprList : List Val → String
  | [] => ""
  | [v] => pyRepr v
  | v :: rest => pyRepr v ++ ", " ++ pyReprList rest

/-- Comma-separated `repr` of dict entries. -/
def pyReprFields : List (String × Val) → String
  | [] => ""
  | [(k, v)] => "\x27" ++ k ++ "\x27: " ++ pyRepr v
  | (k, v) :: rest => "\x27" ++ k ++ "\x27: " ++ pyRepr v ++ ", " ++ pyReprFields rest

end

/-- Python `str()` of a value, as interpolated into f-strings. -/
def pyStr : Val → String
  | .str s => s
  | v => pyRepr v

/-- The process environment (`os.environ`). -/
abbrev Env := List (String × String)

/-- `os.getenv(name)` without a default. -/
def osGetenv : Env → String → Option String
  | [], _ => none
  | (k, v) :: rest, name => if k = name then some v else osGetenv rest name

/-! ## Configuration store (`src/config/manager.py`) -/

/-- `ConfigManager._config`: `none` until `set_config` has been called. -/
abbrev ConfigStore := Option PyDict

/-- `ConfigManager.set_config`: store a copy of the pushed mapping
(`{}` when the argument is falsy). -/
def ConfigManager.set_config (config : PyDict) : ConfigStore :=
  some (if pyTruthy (.obj config) then config else [])

/-- `ConfigManager.is_configured`. -/
def ConfigManager.is_configured (store : ConfigStore) : Bool :=
  store.isSome

/-- The key walk of `ConfigManager.get`: descend one segment at a time,
returning the default when a segment is missing or the current value is not
a dict. -/
def cmGetLoop : List String → Val → Val → Val
  | [], value, _ => value
  | k :: ks, value, dflt =>
    match value with
    | .obj fs =>
      match dget fs k with
      | some v => cmGetLoop ks v dflt
      | none => dflt
    | _ => dflt

/-- `key.split('.')`, written as structural recursion over the characters so
that it evaluates definitionally. -/
def splitDotsAux : List Char → List Char → List String
  | [], acc => [String.mk acc.reverse]
  | c :: cs, acc =>
    if c = '.' then String.mk acc.reverse :: splitDotsAux cs []
    else splitDotsAux cs (c :: acc)

/-- `key.split('.')`. -/
def splitKey (key : String) : List String :=
  splitDotsAux key.data []

/-- `ConfigManager.get(key, default)` with dot notation. -/
def ConfigManager.get (store : ConfigStore) (key : String) (dflt : Val) : Val :=
  match store with
  | none => dflt
  | some cfg => cmGetLoop (splitKey key) (.obj cfg) dflt

/-- One `if not cfg.get(f): cfg[f] = os.getenv(lo, os.getenv(hi, cfg.get(f, dflt)))`
step from `get_jira_config` / `get_confluence_config`. -/
def fallbackField (env : Env) (lo hi field : String) (dflt : Val) (jc : PyDict) :
    PyDict :=
  if pyTruthy (pyGet jc field) then jc
  else
    dset jc field
      (match osGetenv env lo with
       | some v => .str v
       | none =>
         match osGetenv env hi with
         | some v => .str v
         | none => pyGetD jc field dflt)

/-- `ConfigManager.get_jira_config`. `self.get('jira', {})` returns the stored
sub-dict itself when present, so the fallback assignments write through to the
store; the second component is the store after the call. A stored `jira` entry
that is neither absent nor a mapping would raise `AttributeError` in the
source; such stores are excluded by well-formedness hypotheses below. -/
def ConfigManager.get_jira_config (env : Env) (store : ConfigStore) :
    PyDict × ConfigStore :=
  let jc0 : PyDict :=
    match ConfigManager.get store "jira" (.obj []) with
    | .obj fs => fs
    | _ => []
  let jc1 := fallbackField env "jira_url" "JIRA_URL" "url" (.str "") jc0
  let jc2 := fallbackField env "jira_username" "JIRA_USERNAME" "username" (.str "") jc1
  let jc3 := fallbackField env "jira_api_token" "JIRA_API_TOKEN" "api_token" (.str "") jc2
  let jc4 := fallbackField env "jira_auth_type" "JIRA_AUTH_TYPE" "auth_type" (.str "basic") jc3
  (jc4,
    match store with
    | some cfg =>
      some (match dget cfg "jira" with
        | some (.obj _) => dset cfg "jira" (.obj jc4)
        | _ => cfg)
    | none => none)

/-- `ConfigManager.get_confluence_config`, with the same aliasing behavior as
`get_jira_config`. -/
def ConfigManager.get_confluence_config (env : Env) (store : ConfigStore) :
    PyDict × ConfigStore :=
  let cc0 : PyDict :=
    match ConfigManager.get store "confluence" (.obj []) with
    | .obj fs => fs
    | _ => []
  let cc1 := fallbackField env "confluence_url" "CONFLUENCE_URL" "url" (.str "") cc0
  let cc2 := fallbackField env "confluence_username" "CONFLUENCE_USERNAME" "username" (.str "") cc1
  let cc3 := fallbackField env "confluence_api_token" "CONFLUENCE_API_TOKEN" "api_token" (.str "") cc2
  let cc4 := fallbackField env "confluence_auth_type" "CONFLUENCE_AUTH_TYPE" "auth_type" (.str "basic") cc3
  (cc4,
    match store with
    | some cfg =>
      some (match dget cfg "confluence" with
        | some (.obj _) => dset cfg "confluence" (.obj cc4)
        | _ => cfg)
    | none => none)

/-- `ConfigManager.get_all_config`: the redacted snapshot. -/
def ConfigManager.get_all_config (store : ConfigStore) : PyDict :=
  match store with
  | none => []
  | some cfg =>
    cfg.map (fun p =>
      match p.2 with
      | .obj sc =>
        (p.1, Val.obj (sc.map (fun q =>
          if q.1 ∈ ["api_token", "token", "password"] then
            (q.1, if pyTruthy q.2 then Val.str "***" else Val.str "not set")
          else q)))
      | _ => p)

/-- The dict returned by `ConfigManager.validate_configuration`. -/
structure ValidationResults where
  jira : Bool
  confluence : Bool
  overall : Bool
  deriving Repr, DecidableEq

/-- `validate_configuration` as a `Val` (keys in source order). -/
def ValidationResults.toVal (v : ValidationResults) : Val :=
  .obj [("jira", .bool v.jira), ("confluence", .bool v.confluence),
        ("overall", .bool v.overall)]

/-- `ConfigManager.validate_configuration`. The two `get_*_config` calls can
write fallback values back into the store, hence the threaded store. -/
def ConfigManager.validate_configuration (env : Env) (store : ConfigStore) :
    ValidationResults × ConfigStore :=
  let r1 := ConfigManager.get_jira_config env store
  let jiraOk := pyTruthy (pyGet r1.1 "url") && pyTruthy (pyGet r1.1 "username")
      && pyTruthy (pyGet r1.1 "api_token")
  let r2 := ConfigManager.get_confluence_config env r1.2
  let confluenceOk := pyTruthy (pyGet r2.1 "url") && pyTruthy (pyGet r2.1 "username")
      && pyTruthy (pyGet r2.1 "api_token")
  ({ jira := jiraOk, confluence := confluenceOk, overall := jiraOk || confluenceOk },
    r2.2)

/-- `ConfigManager.get_configuration_status`. -/
def ConfigManager.get_configuration_status (env : Env) (store : ConfigStore) :
    String × ConfigStore :=
  if !ConfigManager.is_configured store then ("Not configured", store)
  else
    let r := ConfigManager.validate_configuration env store
    ("Configuration status - "
        ++ (if r.1.jira then "Jira: ✓" else "Jira: ✗") ++ ", "
        ++ (if r.1.confluence then "Confluence: ✓" else "Confluence: ✗"),
      r.2)

/-! ## Request builders (`src/utils/builders.py`) -/

/-- `RequestBuilder`: the `_request` accumulator. -/
structure RequestBuilder where
  _request : PyDict

/-- `RequestBuilder.reset`. -/
def RequestBuilder.reset (_b : RequestBuilder) : RequestBuilder :=
  { _request := [] }

/-- A fresh `RequestBuilder()` (the constructor calls `reset`). -/
def RequestBuilder.init : RequestBuilder :=
  RequestBuilder.reset { _request := [] }

/-- `RequestBuilder.build`: return a copy of the accumulator and reset it. -/
def RequestBuilder.build (b : RequestBuilder) : PyDict × RequestBuilder :=
  (b._request, b.reset)

/-- `JiraIssueBuilder` shares the `RequestBuilder` state and `build`. -/
abbrev JiraIssueBuilder := RequestBuilder

/-- The `if 'fields' not in self._request: self._request['fields'] = {}` +
`self._request['fields'][key] = v` pattern repeated in every
`JiraIssueBuilder` setter. -/
def JiraIssueBuilder.setField (b : JiraIssueBuilder) (key : String) (v : Val) :
    JiraIssueBuilder :=
  let fs : PyDict :=
    match dget b._request "fields" with
    | some (.obj fs) => fs
    | _ => []
  { _request := dset b._request "fields" (.obj (dset fs key v)) }

/-- `JiraIssueBuilder.set_project`. -/
def JiraIssueBuilder.set_project (b : JiraIssueBuilder) (project_key : String) :
    JiraIssueBuilder :=
  b.setField "project" (.obj [("key", .str project_key)])

/-- `JiraIssueBuilder.set_summary`. -/
def JiraIssueBuilder.set_summary (b : JiraIssueBuilder) (summary : String) :
    JiraIssueBuilder :=
  b.setField "summary" (.str summary)

/-- `JiraIssueBuilder.set_description`: wraps the text into the fixed
one-paragraph document shape. -/
def JiraIssueBuilder.set_description (b : JiraIssueBuilder) (description : String) :
    JiraIssueBuilder :=
  b.setField "description" (.obj
    [("type", .str "doc"), ("version", .num 1),
     ("content", .arr [.obj
       [("type", .str "paragraph"),
        ("content", .arr [.obj [("type", .str "text"), ("text", .str description)]])]])])

/-- `JiraIssueBuilder.set_issue_type`. -/
def JiraIssueBuilder.set_issue_type (b : JiraIssueBuilder) (issue_type : String) :
    JiraIssueBuilder :=
  b.setField "issuetype" (.obj [("name", .str issue_type)])

/-- `JiraIssueBuilder.set_assignee`. -/
def JiraIssueBuilder.set_assignee (b : JiraIssueBuilder) (assignee : String) :
    JiraIssueBuilder :=
  b.setField "assignee" (.obj [("name", .str assignee)])

/-- `JiraIssueBuilder.set_labels`. -/
def JiraIssueBuilder.set_labels (b : JiraIssueBuilder) (labels : List Val) :
    JiraIssueBuilder :=
  b.setField "labels" (.arr labels)

/-- `JiraIssueBuilder.set_epic_link`. -/
def JiraIssueBuilder.set_epic_link (b : JiraIssueBuilder) (epic_key : String) :
    JiraIssueBuilder :=
  b.setField "customfield_10014" (.str epic_key)

/-- `JiraIssueBuilder.set_parent`. -/
def JiraIssueBuilder.set_parent (b : JiraIssueBuilder) (parent_key : String) :
    JiraIssueBuilder :=
  b.setField "parent" (.obj [("key", .str parent_key)])

/-- `ConfluencePageBuilder` shares the `RequestBuilder` state and `build`. -/
abbrev ConfluencePageBuilder := RequestBuilder

/-- `ConfluencePageBuilder.set_space`. -/
def ConfluencePageBuilder.set_space (b : ConfluencePageBuilder) (space_key : String) :
    ConfluencePageBuilder :=
  { _request := dset b._request "space" (.obj [("key", .str space_key)]) }

/-- `ConfluencePageBuilder.set_title`. -/
def ConfluencePageBuilder.set_title (b : ConfluencePageBuilder) (title : String) :
    ConfluencePageBuilder :=
  { _request := dset b._request "title" (.str title) }

/-- `ConfluencePageBuilder.set_content` (representation defaults to `storage`). -/
def ConfluencePageBuilder.set_content (b : ConfluencePageBuilder)
    (content representation : String) : ConfluencePageBuilder :=
  { _request := dset b._request "body" (.obj
      [(representation, .obj
        [("value", .str content), ("representation", .str representation)])]) }

/-- `ConfluencePageBuilder.set_parent`: appends to the `ancestors` list. -/
def ConfluencePageBuilder.set_parent (b : ConfluencePageBuilder) (parent_id : String) :
    ConfluencePageBuilder :=
  let ancestors : List Val :=
    match dget b._request "ancestors" with
    | some (.arr xs) => xs
    | _ => []
  { _request := dset b._request "ancestors"
      (.arr (ancestors ++ [.obj [("id", .str parent_id)]])) }

/-- `ConfluencePageBuilder.set_type`. -/
def ConfluencePageBuilder.set_type (b : ConfluencePageBuilder) (page_type : String) :
    ConfluencePageBuilder :=
  { _request := dset b._request "type" (.str page_type) }

/-- `JiraFilterBuilder`: the `_request` accumulator plus the `_jql_parts`
clause list. -/
structure JiraFilterBuilder where
  _request : PyDict
  _jql_parts : List String

/-- `JiraFilterBuilder.reset`: clears both accumulators. -/
def JiraFilterBuilder.reset (_b : JiraFilterBuilder) : JiraFilterBuilder :=
  { _request := [], _jql_parts := [] }

/-- A fresh `JiraFilterBuilder()`. -/
def JiraFilterBuilder.init : JiraFilterBuilder :=
  { _request := [], _jql_parts := [] }

/-- `JiraFilterBuilder.add_project`. -/
def JiraFilterBuilder.add_project (b : JiraFilterBuilder) (project_key : String) :
    JiraFilterBuilder :=
  { b with _jql_parts := b._jql_parts ++ ["project = \"" ++ project_key ++ "\""] }

/-- `JiraFilterBuilder.add_epic`. -/
def JiraFilterBuilder.add_epic (b : JiraFilterBuilder) (epic_key : String) :
    JiraFilterBuilder :=
  { b with _jql_parts := b._jql_parts ++ ["\"Epic Link\" = \"" ++ epic_key ++ "\""] }

/-- `JiraFilterBuilder.add_assignee`. -/
def JiraFilterBuilder.add_assignee (b : JiraFilterBuilder) (assignee : String) :
    JiraFilterBuilder :=
  { b with _jql_parts := b._jql_parts ++ ["assignee = \"" ++ assignee ++ "\""] }

/-- `JiraFilterBuilder.add_status`. -/
def JiraFilterBuilder.add_status (b : JiraFilterBuilder) (status : String) :
    JiraFilterBuilder :=
  { b with _jql_parts := b._jql_parts ++ ["status = \"" ++ status ++ "\""] }

/-- `JiraFilterBuilder.add_issue_type`. -/
def JiraFilterBuilder.add_issue_type (b : JiraFilterBuilder) (issue_type : String) :
    JiraFilterBuilder :=
  { b with _jql_parts := b._jql_parts ++ ["issuetype = \"" ++ issue_type ++ "\""] }

/-- `JiraFilterBuilder.set_order_by`. -/
def JiraFilterBuilder.set_order_by (b : JiraFilterBuilder) (field direction : String) :
    JiraFilterBuilder :=
  { b with _request := dset b._request "orderBy" (.str (field ++ " " ++ direction)) }

/-- `JiraFilterBuilder.set_max_results`. -/
def JiraFilterBuilder.set_max_results (b : JiraFilterBuilder) (max_results : Int) :
    JiraFilterBuilder :=
  { b with _request := dset b._request "maxResults" (.num max_results) }

/-- `JiraFilterBuilder.set_start_at`. -/
def JiraFilterBuilder.set_start_at (b : JiraFilterBuilder) (start_at : Int) :
    JiraFilterBuilder :=
  { b with _request := dset b._request "startAt" (.num start_at) }

/-- `JiraFilterBuilder.build`: join the clauses into `jql` (only when there are
any), return a copy and reset. -/
def JiraFilterBuilder.build (b : JiraFilterBuilder) : PyDict × JiraFilterBuilder :=
  let r :=
    if !b._jql_parts.isEmpty then
      dset b._request "jql" (.str (String.intercalate " AND " b._jql_parts))
    else b._request
  (r, b.reset)

/-! ## Service client adapters (external collaborators)

`JiraAPI` / `ConfluenceAPI` perform HTTP calls; the spec treats them as
opaque clients whose methods either return a structured result or fail.
They are modelled as records of total functions into `Except String`, the
error carrying `str(e)` of the raised exception. -/

/-- The `JiraAPI` methods invoked by the Jira commands. -/
structure JiraApi where
  create : PyDict → Except String PyDict
  update : Val → PyDict → Except String PyDict
  delete : Val → Except String Bool
  create_subtask : Val → PyDict → Except String PyDict
  search : PyDict → Except String (List Val)
  get_debug_info : Unit → Except String PyDict

/-- The `ConfluenceAPI` methods invoked by the Confluence commands. -/
structure ConfluenceApi where
  create : PyDict → Except String PyDict
  update : Val → PyDict → Except String PyDict
  delete : Val → Except String Bool
  search : PyDict → Except String (List Val)
  search_by_parent : Val → PyDict → Except String (List Val)
  get_debug_info : Unit → Except String PyDict

/-! ## Commands (`src/commands/base.py`, `jira_commands.py`,
`confluence_commands.py`) -/

/-- One required-field check of `Command.validate_args`:
`field not in args or args[field] is None`. -/
def fieldMissing (args : PyDict) (field : String) : Bool :=
  match dget args field with
  | none => true
  | some .null => true
  | some _ => false

/-- The missing-field list collected by `Command.validate_args`. -/
def missingFields (args : PyDict) (required_fields : List String) : List String :=
  required_fields.filter (fieldMissing args)

/-- `Command.validate_args`: `some msg` is the raised
`ValueError("Missing required fields: ...")`. -/
def Command.validate_args (args : PyDict) (required_fields : List String) :
    Option String :=
  let missing := missingFields args required_fields
  if !missing.isEmpty then
    some ("Missing required fields: " ++ String.intercalate ", " missing)
  else none

/-- `CreateJiraIssueCommand.execute`. -/
def CreateJiraIssueCommand.execute (api : JiraApi) (args : PyDict) :
    Except String PyDict :=
  match Command.validate_args args ["project", "summary", "issuetype"] with
  | some msg => .error msg
  | none =>
    match api.create args with
    | .ok result =>
      .ok [("success", .bool true),
           ("issue_key", pyGet result "key"),
           ("issue_id", pyGet result "id"),
           ("message", .str ("Issue " ++ pyStr (pyGet result "key")
              ++ " created successfully"))]
    | .error e => .ok [("success", .bool false), ("error", .str e)]

/-- `UpdateJiraIssueCommand.execute` (`issue_key` is popped before the call). -/
def UpdateJiraIssueCommand.execute (api : JiraApi) (args : PyDict) :
    Except String PyDict :=
  match Command.validate_args args ["issue_key"] with
  | some msg => .error msg
  | none =>
    let issue_key := pyGet args "issue_key"
    let rest := dremove args "issue_key"
    match api.update issue_key rest with
    | .ok _ =>
      .ok [("success", .bool true),
           ("issue_key", issue_key),
           ("message", .str ("Issue " ++ pyStr issue_key ++ " updated successfully"))]
    | .error e => .ok [("success", .bool false), ("error", .str e)]

/-- `DeleteJiraIssueCommand.execute`. -/
def DeleteJiraIssueCommand.execute (api : JiraApi) (args : PyDict) :
    Except String PyDict :=
  match Command.validate_args args ["issue_key"] with
  | some msg => .error msg
  | none =>
    match api.delete (pyGet args "issue_key") with
    | .ok true =>
      .ok [("success", .bool true),
           ("message", .str ("Issue " ++ pyStr (pyGet args "issue_key")
              ++ " deleted successfully"))]
    | .ok false => .ok [("success", .bool false), ("error", .str "Failed to delete issue")]
    | .error e => .ok [("success", .bool false), ("error", .str e)]

/-- `CreateJiraSubtaskCommand.execute` (`parent_key` is popped). -/
def CreateJiraSubtaskCommand.execute (api : JiraApi) (args : PyDict) :
    Except String PyDict :=
  match Command.validate_args args ["parent_key", "summary"] with
  | some msg => .error msg
  | none =>
    let parent_key := pyGet args "parent_key"
    let rest := dremove args "parent_key"
    match api.create_subtask parent_key rest with
    | .ok result =>
      .ok [("success", .bool true),
           ("issue_key", pyGet result "key"),
           ("issue_id", pyGet result "id"),
           ("parent_key", parent_key),
           ("message", .str ("Subtask " ++ pyStr (pyGet result "key")
              ++ " created for " ++ pyStr parent_key))]
    | .error e => .ok [("success", .bool false), ("error", .str e)]

/-- `SearchJiraIssuesCommand.execute` (no required fields). -/
def SearchJiraIssuesCommand.execute (api : JiraApi) (args : PyDict) :
    Except String PyDict :=
  match api.search args with
  | .ok issues =>
    .ok [("success", .bool true),
         ("issues", .arr issues),
         ("count", .num issues.length),
         ("message", .str ("Found " ++ toString issues.length ++ " issues"))]
  | .error e => .ok [("success", .bool false), ("error", .str e)]

/-- `GetJiraDebugInfoCommand.execute`. -/
def GetJiraDebugInfoCommand.execute (api : JiraApi) (_args : PyDict) :
    Except String PyDict :=
  match api.get_debug_info () with
  | .ok debug_info =>
    .ok [("success", .bool true),
         ("debug_info", .obj debug_info),
         ("message", .str "Debug information retrieved successfully")]
  | .error e => .ok [("success", .bool false), ("error", .str e)]

/-- `CreateConfluencePageCommand.execute`. -/
def CreateConfluencePageCommand.execute (api : ConfluenceApi) (args : PyDict) :
    Except String PyDict :=
  match Command.validate_args args ["space", "title", "content"] with
  | some msg => .error msg
  | none =>
    match api.create args with
    | .ok result =>
      .ok [("success", .bool true),
           ("page_id", pyGet result "id"),
           ("page_title", pyGet result "title"),
           ("space", pyGet (match pyGetD result "space" (.obj []) with
              | .obj sp => sp
              | _ => []) "key"),
           ("message", .str ("Page \x27" ++ pyStr (pyGet result "title")
              ++ "\x27 created successfully"))]
    | .error e => .ok [("success", .bool false), ("error", .str e)]

/-- `UpdateConfluencePageCommand.execute` (`page_id` is popped). -/
def UpdateConfluencePageCommand.execute (api : ConfluenceApi) (args : PyDict) :
    Except String PyDict :=
  match Command.validate_args args ["page_id"] with
  | some msg => .error msg
  | none =>
    let page_id := pyGet args "page_id"
    let rest := dremove args "page_id"
    match api.update page_id rest with
    | .ok result =>
      .ok [("success", .bool true),
           ("page_id", pyGet result "id"),
           ("page_title", pyGet result "title"),
           ("message", .str ("Page " ++ pyStr page_id ++ " updated successfully"))]
    | .error e => .ok [("success", .bool false), ("error", .str e)]

/-- `DeleteConfluencePageCommand.execute`. -/
def DeleteConfluencePageCommand.execute (api : ConfluenceApi) (args : PyDict) :
    Except String PyDict :=
  match Command.validate_args args ["page_id"] with
  | some msg => .error msg
  | none =>
    match api.delete (pyGet args "page_id") with
    | .ok true =>
      .ok [("success", .bool true),
           ("message", .str ("Page " ++ pyStr (pyGet args "page_id")
              ++ " deleted successfully"))]
    | .ok false => .ok [("success", .bool false), ("error", .str "Failed to delete page")]
    | .error e => .ok [("success", .bool false), ("error", .str e)]

/-- `SearchConfluencePagesCommand.execute` (no required fields). -/
def SearchConfluencePagesCommand.execute (api : ConfluenceApi) (args : PyDict) :
    Except String PyDict :=
  match api.search args with
  | .ok pages =>
    .ok [("success", .bool true),
         ("pages", .arr pages),
         ("count", .num pages.length),
         ("message", .str ("Found " ++ toString pages.length ++ " pages"))]
  | .error e => .ok [("success", .bool false), ("error", .str e)]

/-- `SearchConfluencePagesByParentCommand.execute` (`parent_id` is popped). -/
def SearchConfluencePagesByParentCommand.execute (api : ConfluenceApi)
    (args : PyDict) : Except String PyDict :=
  match Command.validate_args args ["parent_id"] with
  | some msg => .error msg
  | none =>
    let parent_id := pyGet args "parent_id"
    let rest := dremove args "parent_id"
    match api.search_by_parent parent_id rest with
    | .ok pages =>
      .ok [("success", .bool true),
           ("pages", .arr pages),
           ("count", .num pages.length),
           ("parent_id", parent_id),
           ("message", .str ("Found " ++ toString pages.length ++ " child pages"))]
    | .error e => .ok [("success", .bool false), ("error", .str e)]

/-- `GetConfluenceDebugInfoCommand.execute`. -/
def GetConfluenceDebugInfoCommand.execute (api : ConfluenceApi) (_args : PyDict) :
    Except String PyDict :=
  match api.get_debug_info () with
  | .ok debug_info =>
    .ok [("success", .bool true),
         ("debug_info", .obj debug_info),
         ("message", .str "Debug information retrieved successfully")]
  | .error e => .ok [("success", .bool false), ("error", .str e)]

/-- The twelve backend command classes. -/
inductive Cmd where
  | createJiraIssue
  | updateJiraIssue
  | deleteJiraIssue
  | createJiraSubtask
  | searchJiraIssues
  | getJiraDebugInfo
  | createConfluencePage
  | updateConfluencePage
  | deleteConfluencePage
  | searchConfluencePages
  | searchConfluencePagesByParent
  | getConfluenceDebugInfo
  deriving Repr, DecidableEq

/-- The registration name of each command (`_initialize_commands`). -/
def Cmd.name : Cmd → String
  | .createJiraIssue => "create_jira_issue"
  | .updateJiraIssue => "update_jira_issue"
  | .deleteJiraIssue => "delete_jira_issue"
  | .createJiraSubtask => "create_jira_subtask"
  | .searchJiraIssues => "search_jira_issues"
  | .getJiraDebugInfo => "get_jira_debug_info"
  | .createConfluencePage => "create_confluence_page"
  | .updateConfluencePage => "update_confluence_page"
  | .deleteConfluencePage => "delete_confluence_page"
  | .searchConfluencePages => "search_confluence_pages"
  | .searchConfluencePagesByParent => "search_confluence_pages_by_parent"
  | .getConfluenceDebugInfo => "get_confluence_debug_info"

/-- The required argument names each command passes to `validate_args`. -/
def Cmd.requiredFields : Cmd → List String
  | .createJiraIssue => ["project", "summary", "issuetype"]
  | .updateJiraIssue => ["issue_key"]
  | .deleteJiraIssue => ["issue_key"]
  | .createJiraSubtask => ["parent_key", "summary"]
  | .searchJiraIssues => []
  | .getJiraDebugInfo => []
  | .createConfluencePage => ["space", "title", "content"]
  | .updateConfluencePage => ["page_id"]
  | .deleteConfluencePage => ["page_id"]
  | .searchConfluencePages => []
  | .searchConfluencePagesByParent => ["parent_id"]
  | .getConfluenceDebugInfo => []

/-- Dispatch a command to its `execute` (Jira commands use the Jira client,
Confluence commands the Confluence client). -/
def Cmd.execute (c : Cmd) (ja : JiraApi) (ca : ConfluenceApi) (args : PyDict) :
    Except String PyDict :=
  match c with
  | .createJiraIssue => CreateJiraIssueCommand.execute ja args
  | .updateJiraIssue => UpdateJiraIssueCommand.execute ja args
  | .deleteJiraIssue => DeleteJiraIssueCommand.execute ja args
  | .createJiraSubtask => CreateJiraSubtaskCommand.execute ja args
  | .searchJiraIssues => SearchJiraIssuesCommand.execute ja args
  | .getJiraDebugInfo => GetJiraDebugInfoCommand.execute ja args
  | .createConfluencePage => CreateConfluencePageCommand.execute ca args
  | .updateConfluencePage => UpdateConfluencePageCommand.execute ca args
  | .deleteConfluencePage => DeleteConfluencePageCommand.execute ca args
  | .searchConfluencePages => SearchConfluencePagesCommand.execute ca args
  | .searchConfluencePagesByParent => SearchConfluencePagesByParentCommand.execute ca args
  | .getConfluenceDebugInfo => GetConfluenceDebugInfoCommand.execute ca args

/-! ## Handler chain (`src/commands/handlers.py`) -/

/-- The static name → description table of
`SystemCommandHandler._get_available_commands`. -/
def availableCommands : PyDict :=
  [("ping", .str "Check server connectivity"),
   ("health", .str "Check server health status"),
   ("config_status", .str "Check configuration status"),
   ("list_commands", .str "List all available commands"),
   ("create_jira_issue", .str "Create a new Jira issue"),
   ("update_jira_issue", .str "Update an existing Jira issue"),
   ("delete_jira_issue", .str "Delete a Jira issue"),
   ("create_jira_subtask", .str "Create a subtask for a parent issue"),
   ("search_jira_issues", .str "Search for Jira issues with filters"),
   ("get_jira_debug_info", .str "Get Jira debug information"),
   ("create_confluence_page", .str "Create a new Confluence page"),
   ("update_confluence_page", .str "Update an existing Confluence page"),
   ("delete_confluence_page", .str "Delete a Confluence page"),
   ("search_confluence_pages", .str "Search for Confluence pages with filters"),
   ("search_confluence_pages_by_parent", .str "Search for child pages of a parent page"),
   ("get_confluence_debug_info", .str "Get Confluence debug information")]

/-- `SystemCommandHandler._handle`: `none` when the name is not a system
command. `config_status` reads the configuration store (whose resolution can
write fallback values back), so the store is threaded through. -/
def SystemCommandHandler.tryHandle (env : Env) (store : ConfigStore)
    (command_name : Val) (_args : PyDict) : Option PyDict × ConfigStore :=
  match command_name with
  | .str "ping" =>
    (some [("success", .bool true), ("message", .str "pong")], store)
  | .str "health" =>
    (some [("success", .bool true), ("status", .str "healthy"),
           ("message", .str "MCP Atlassian server is running")], store)
  | .str "config_status" =>
    let configured := ConfigManager.is_configured store
    let s := ConfigManager.get_configuration_status env store
    let v := ConfigManager.validate_configuration env s.2
    (some [("success", .bool true),
           ("configured", .bool configured),
           ("status", .str s.1),
           ("validation", v.1.toVal),
           ("message", .str "Configuration status retrieved")], v.2)
  | .str "list_commands" =>
    (some [("success", .bool true),
           ("commands", .obj availableCommands),
           ("message", .str "Available commands listed")], store)
  | _ => (none, store)

/-- The six Jira command classes, as registrable in a Jira command dict. -/
inductive JiraCmd where
  | create | update | delete | createSubtask | search | getDebugInfo
  deriving Repr, DecidableEq

/-- `execute` of a Jira command class. -/
def JiraCmd.execute (c : JiraCmd) (api : JiraApi) (args : PyDict) :
    Except String PyDict :=
  match c with
  | .create => CreateJiraIssueCommand.execute api args
  | .update => UpdateJiraIssueCommand.execute api args
  | .delete => DeleteJiraIssueCommand.execute api args
  | .createSubtask => CreateJiraSubtaskCommand.execute api args
  | .search => SearchJiraIssuesCommand.execute api args
  | .getDebugInfo => GetJiraDebugInfoCommand.execute api args

/-- The six Confluence command classes. -/
inductive ConflCmd where
  | create | update | delete | search | searchByParent | getDebugInfo
  deriving Repr, DecidableEq

/-- `execute` of a Confluence command class. -/
def ConflCmd.execute (c : ConflCmd) (api : ConfluenceApi) (args : PyDict) :
    Except String PyDict :=
  match c with
  | .create => CreateConfluencePageCommand.execute api args
  | .update => UpdateConfluencePageCommand.execute api args
  | .delete => DeleteConfluencePageCommand.execute api args
  | .search => SearchConfluencePagesCommand.execute api args
  | .searchByParent => SearchConfluencePagesByParentCommand.execute api args
  | .getDebugInfo => GetConfluenceDebugInfoCommand.execute api args

/-- A registered Jira command object: the command class and the client
instance it was constructed with. -/
structure JiraCmdObj where
  cmd : JiraCmd
  api : JiraApi

/-- A registered Confluence command object. -/
structure ConflCmdObj where
  cmd : ConflCmd
  api : ConfluenceApi

/-- `command_name in commands` for a Jira command dict (string keys, so a
non-string name never matches). -/
def lookupJiraCmd : List (String × JiraCmdObj) → Val → Option JiraCmdObj
  | [], _ => none
  | (k, o) :: rest, name =>
    match name with
    | .str s => if k = s then some o else lookupJiraCmd rest name
    | _ => none

/-- `command_name in commands` for a Confluence command dict. -/
def lookupConflCmd : List (String × ConflCmdObj) → Val → Option ConflCmdObj
  | [], _ => none
  | (k, o) :: rest, name =>
    match name with
    | .str s => if k = s then some o else lookupConflCmd rest name
    | _ => none

/-- The handler chain installed in `self.command_handler`: either the bare
`SystemCommandHandler` from `_initialize_system_commands`, or the
system → Jira → Confluence chain built by `_initialize_commands`. -/
inductive HandlerChain where
  | systemOnly
  | full (jira_commands : List (String × JiraCmdObj))
         (confluence_commands : List (String × ConflCmdObj))

/-- The `{'success': False, 'error': f"Unknown command: {name}"}` outcome
synthesized at the end of the chain. -/
def unknownCommandOutcome (command_name : Val) : PyDict :=
  [("success", .bool false),
   ("error", .str ("Unknown command: " ++ pyStr command_name))]

/-- `CommandHandler.handle` for the installed chain, with the successor
recursion flattened: try the system handler, then (when present) the Jira and
Confluence command dicts, and synthesize the unknown-command outcome when no
handler matches. A `ValueError` raised by `validate_args` inside
`Command.execute` propagates out of `handle` uncaught (`Except.error`). -/
def HandlerChain.handle (env : Env) (store : ConfigStore) (hc : HandlerChain)
    (command_name : Val) (args : PyDict) : Except String PyDict × ConfigStore :=
  let s := SystemCommandHandler.tryHandle env store command_name args
  match s.1 with
  | some r => (.ok r, s.2)
  | none =>
    match hc with
    | .systemOnly => (.ok (unknownCommandOutcome command_name), s.2)
    | .full jira_commands confluence_commands =>
      match lookupJiraCmd jira_commands command_name with
      | some o => (o.cmd.execute o.api args, s.2)
      | none =>
        match lookupConflCmd confluence_commands command_name with
        | some o => (o.cmd.execute o.api args, s.2)
        | none => (.ok (unknownCommandOutcome command_name), s.2)

/-! ## Server (`src/server.py`) -/

/-- External collaborators of the server: the client constructors
(`JiraAPI(...)` / `ConfluenceAPI(...)`, which perform transport setup) and
`json.dumps(..., indent=2)` from the standard library. -/
structure External where
  mkJiraApi : Val → Val → Val → JiraApi
  mkConfluenceApi : Val → Val → Val → ConfluenceApi
  dumps : PyDict → String

/-- The server's mutable state: the process-wide configuration store and the
fields of `MCPAtlassianServer`. -/
structure ServerState where
  store : ConfigStore
  jira_api : Option JiraApi
  confluence_api : Option ConfluenceApi
  command_handler : HandlerChain

/-- A message `params` / `config` payload read as a mapping. Well-formed
messages carry JSON objects here; a non-mapping payload would raise in the
source before reaching the behavior modelled by the theorems below. -/
def asObjDict : Val → PyDict
  | .obj fs => fs
  | _ => []

/-- `MCPAtlassianServer._initialize_commands`: rebuild the
system → Jira → Confluence chain from the currently constructed clients. -/
def MCPAtlassianServer._initialize_commands (st : ServerState) : ServerState :=
  let jira_commands : List (String × JiraCmdObj) :=
    match st.jira_api with
    | some api =>
      [("create_jira_issue", ⟨.create, api⟩),
       ("update_jira_issue", ⟨.update, api⟩),
       ("delete_jira_issue", ⟨.delete, api⟩),
       ("create_jira_subtask", ⟨.createSubtask, api⟩),
       ("search_jira_issues", ⟨.search, api⟩),
       ("get_jira_debug_info", ⟨.getDebugInfo, api⟩)]
    | none => []
  let confluence_commands : List (String × ConflCmdObj) :=
    match st.confluence_api with
    | some api =>
      [("create_confluence_page", ⟨.create, api⟩),
       ("update_confluence_page", ⟨.update, api⟩),
       ("delete_confluence_page", ⟨.delete, api⟩),
       ("search_confluence_pages", ⟨.search, api⟩),
       ("search_confluence_pages_by_parent", ⟨.searchByParent, api⟩),
       ("get_confluence_debug_info", ⟨.getDebugInfo, api⟩)]
    | none => []
  { st with command_handler := .full jira_commands confluence_commands }

/-- `MCPAtlassianServer._initialize_apis`. When a backend validates, a fresh
client is constructed from its resolved configuration; a backend that does not
validate leaves the previously constructed client (if any) in place. The
status/validation/resolution calls can write fallback values into the store.
Client construction is total in this model (a constructor exception would
propagate to the caller in the source). -/
def MCPAtlassianServer._initialize_apis (env : Env) (ext : External)
    (st : ServerState) : ServerState :=
  if !ConfigManager.is_configured st.store then st
  else
    let s1 := ConfigManager.get_configuration_status env st.store
    let v := ConfigManager.validate_configuration env s1.2
    let stJ :=
      if v.1.jira then
        let r := ConfigManager.get_jira_config env v.2
        { st with store := r.2,
                  jira_api := some (ext.mkJiraApi (pyGet r.1 "url")
                    (pyGet r.1 "username") (pyGet r.1 "api_token")) }
      else { st with store := v.2 }
    let stC :=
      if v.1.confluence then
        let r := ConfigManager.get_confluence_config env stJ.store
        { stJ with store := r.2,
                   confluence_api := some (ext.mkConfluenceApi (pyGet r.1 "url")
                     (pyGet r.1 "username") (pyGet r.1 "api_token")) }
      else stJ
    MCPAtlassianServer._initialize_commands stC

/-- `MCPAtlassianServer._try_initialize_from_env`. -/
def MCPAtlassianServer._try_initialize_from_env (env : Env) (ext : External)
    (st : ServerState) : ServerState :=
  let rj := ConfigManager.get_jira_config env st.store
  let rc := ConfigManager.get_confluence_config env rj.2
  let has_jira := pyTruthy (pyGet rj.1 "url") && pyTruthy (pyGet rj.1 "username")
      && pyTruthy (pyGet rj.1 "api_token")
  let has_confluence := pyTruthy (pyGet rc.1 "url") && pyTruthy (pyGet rc.1 "username")
      && pyTruthy (pyGet rc.1 "api_token")
  if has_jira || has_confluence then
    MCPAtlassianServer._initialize_apis env ext
      { st with store := ConfigManager.set_config [("initialized_from_env", .bool true)] }
  else { st with store := rc.2 }

/-- `MCPAtlassianServer.__init__`: system handler only, then environment
discovery. The process-wide configuration store starts unset. -/
def MCPAtlassianServer.new (env : Env) (ext : External) : ServerState :=
  MCPAtlassianServer._try_initialize_from_env env ext
    { store := none, jira_api := none, confluence_api := none,
      command_handler := .systemOnly }

/-- A string-typed schema property. -/
def strProp (desc : String) : Val :=
  .obj [("type", .str "string"), ("description", .str desc)]

/-- A number-typed schema property. -/
def numProp (desc : String) : Val :=
  .obj [("type", .str "number"), ("description", .str desc)]

/-- `{'type': 'object', 'properties': {}}`. -/
def emptySchema : Val :=
  .obj [("type", .str "object"), ("properties", .obj [])]

/-- One tool descriptor. -/
def toolDesc (name desc : String) (schema : Val) : Val :=
  .obj [("name", .str name), ("description", .str desc), ("inputSchema", schema)]

/-- The static system tool descriptors of `_handle_tools_list`. -/
def systemTools : List Val :=
  [toolDesc "ping" "Check server connectivity" emptySchema,
   toolDesc "health" "Check server health status" emptySchema,
   toolDesc "config_status" "Check configuration status for Jira and Confluence"
     emptySchema]

/-- The Jira tool descriptors, emitted only when the Jira client exists. -/
def jiraTools : List Val :=
  [toolDesc "create_jira_issue" "Create a new Jira issue" (.obj
     [("type", .str "object"),
      ("properties", .obj
        [("project", strProp "Project key"),
         ("summary", strProp "Issue summary"),
         ("issuetype", strProp "Issue type"),
         ("description", strProp "Issue description"),
         ("assignee", strProp "Assignee username"),
         ("labels", .obj [("type", .str "array"),
            ("items", .obj [("type", .str "string")]),
            ("description", .str "Labels")]),
         ("epic", strProp "Epic key")]),
      ("required", .arr [.str "project", .str "summary", .str "issuetype"])]),
   toolDesc "search_jira_issues" "Search for Jira issues" (.obj
     [("type", .str "object"),
      ("properties", .obj
        [("project", strProp "Project key"),
         ("epic", strProp "Epic key"),
         ("assignee", strProp "Assignee username"),
         ("status", strProp "Issue status"),
         ("maxResults", numProp "Maximum results")])]),
   toolDesc "get_jira_debug_info" "Get Jira debug information" emptySchema]

/-- The Confluence tool descriptors, emitted only when the Confluence client
exists. -/
def confluenceTools : List Val :=
  [toolDesc "create_confluence_page" "Create a new Confluence page" (.obj
     [("type", .str "object"),
      ("properties", .obj
        [("space", strProp "Space key"),
         ("title", strProp "Page title"),
         ("content", strProp "Page content"),
         ("parent", strProp "Parent page ID")]),
      ("required", .arr [.str "space", .str "title", .str "content"])]),
   toolDesc "search_confluence_pages" "Search for Confluence pages" (.obj
     [("type", .str "object"),
      ("properties", .obj
        [("space", strProp "Space key"),
         ("title", strProp "Page title"),
         ("limit", numProp "Maximum results")])]),
   toolDesc "get_confluence_debug_info" "Get Confluence debug information"
     emptySchema]

/-- `MCPAtlassianServer._handle_tools_list`: system tools, plus the backend
tools for each currently constructed client. -/
def MCPAtlassianServer._handle_tools_list (st : ServerState) : PyDict :=
  [("tools", .arr (systemTools
      ++ (if st.jira_api.isSome then jiraTools else [])
      ++ (if st.confluence_api.isSome then confluenceTools else [])))]

/-- The fixed descriptor returned by `_handle_initialize`. -/
def initializeResult : PyDict :=
  [("protocolVersion", .str "2024-11-05"),
   ("capabilities", .obj [("tools", .obj [])]),
   ("serverInfo", .obj [("name", .str "mcp-atlassian-server"),
                        ("version", .str "1.0.0")])]

/-- `MCPAtlassianServer._handle_initialize`: push the configuration when one
is provided (reinitializing clients and the chain; a failure there is logged
and swallowed), and always return the fixed descriptor. -/
def MCPAtlassianServer._handle_initialize (env : Env) (ext : External)
    (st : ServerState) (params : PyDict) : PyDict × ServerState :=
  let st1 :=
    if dmem params "config" then
      MCPAtlassianServer._initialize_apis env ext
        { st with store := ConfigManager.set_config (asObjDict (pyGet params "config")) }
    else st
  (initializeResult, st1)

/-- `MCPAtlassianServer._handle_tool_call`. A `ValueError` raised by a
command's `validate_args` propagates (`Except.error`). -/
def MCPAtlassianServer._handle_tool_call (env : Env) (ext : External)
    (st : ServerState) (params : PyDict) : Except String PyDict × ServerState :=
  if !dmem params "name" then
    (.ok [("error", .str "Missing tool name"), ("success", .bool false)], st)
  else
    let tool_name := pyGet params "name"
    let arguments := asObjDict (pyGetD params "arguments" (.obj []))
    let r := HandlerChain.handle env st.store st.command_handler tool_name arguments
    let st1 := { st with store := r.2 }
    match r.1 with
    | .ok result =>
      (.ok [("content", .arr [.obj [("type", .str "text"),
         ("text", .str (ext.dumps result))]])], st1)
    | .error e => (.error e, st1)

/-- `MCPAtlassianServer._handle_set_config`: requires a `config` field, pushes
it wholesale and reinitializes clients and the chain. -/
def MCPAtlassianServer._handle_set_config (env : Env) (ext : External)
    (st : ServerState) (params : PyDict) : PyDict × ServerState :=
  if !dmem params "config" then
    ([("success", .bool false), ("error", .str "Missing config in parameters")], st)
  else
    let st1 := MCPAtlassianServer._initialize_apis env ext
      { st with store := ConfigManager.set_config (asObjDict (pyGet params "config")) }
    ([("success", .bool true),
      ("message", .str "Configuration set and APIs initialized successfully")], st1)

/-- `MCPAtlassianServer.process_message`: protocol methods first, everything
else through the handler chain; any exception is converted to
`{'error': str(e), 'success': False}`. -/
def MCPAtlassianServer.process_message (env : Env) (ext : External)
    (st : ServerState) (message : PyDict) : PyDict × ServerState :=
  if !dmem message "method" then
    ([("error", .str "Missing method in message"), ("success", .bool false)], st)
  else
    let method := pyGet message "method"
    let params := asObjDict (pyGetD message "params" (.obj []))
    match method with
    | .str "initialize" => MCPAtlassianServer._handle_initialize env ext st params
    | .str "tools/list" => (MCPAtlassianServer._handle_tools_list st, st)
    | .str "tools/call" =>
      let r := MCPAtlassianServer._handle_tool_call env ext st params
      match r.1 with
      | .ok result => (result, r.2)
      | .error e => ([("error", .str e), ("success", .bool false)], r.2)
    | .str "set_config" => MCPAtlassianServer._handle_set_config env ext st params
    | _ =>
      let r := HandlerChain.handle env st.store st.command_handler method params
      let st1 := { st with store := r.2 }
      match r.1 with
      | .ok result => (result, st1)
      | .error e => ([("error", .str e), ("success", .bool false)], st1)

/-! ## Protocol loop (`MCPAtlassianServer.run`)

`json.loads` / line reading belong to the standard library, so an input line
is modelled by what decoding yields: blank after strip, undecodable, or a
decoded message object. -/

/-- One stripped input line as seen by the loop body. -/
inductive InputLine where
  | blank
  | malformed (raw : String)
  | msg (m : PyDict)

/-- The response envelope `{'jsonrpc': '2.0', 'id': message.get('id'),
'result': result}`. -/
def mkResponse (idv : Val) (result : PyDict) : Val :=
  .obj [("jsonrpc", .str "2.0"), ("id", idv), ("result", .obj result)]

/-- The fixed parse-error response written on a `json.JSONDecodeError`. -/
def parseErrorResponse : Val :=
  .obj [("jsonrpc", .str "2.0"), ("id", .null),
        ("error", .obj [("code", .num (-32700)), ("message", .str "Parse error")])]

/-- `MCPAtlassianServer.run`: one flushed response line per non-blank input
line; a malformed line yields the parse-error response and the loop
continues. -/
def MCPAtlassianServer.run (env : Env) (ext : External) :
    ServerState → List InputLine → List Val
  | _, [] => []
  | st, .blank :: rest => MCPAtlassianServer.run env ext st rest
  | st, .malformed _ :: rest =>
    parseErrorResponse :: MCPAtlassianServer.run env ext st rest
  | st, .msg m :: rest =>
    let r := MCPAtlassianServer.process_message env ext st m
    mkResponse (pyGet m "id") r.1 :: MCPAtlassianServer.run env ext r.2 rest

/-! ## Clause-adding calls for the search-filter builder -/

/-- A clause-adding call on `JiraFilterBuilder`. -/
inductive FilterOp where
  | addProject (project_key : String)
  | addEpic (epic_key : String)
  | addAssignee (assignee : String)
  | addStatus (status : String)
  | addIssueType (issue_type : String)

/-- Apply one clause-adding call. -/
def FilterOp.apply (b : JiraFilterBuilder) : FilterOp → JiraFilterBuilder
  | .addProject k => b.add_project k
  | .addEpic k => b.add_epic k
  | .addAssignee a => b.add_assignee a
  | .addStatus s => b.add_status s
  | .addIssueType t => b.add_issue_type t

/-- The equality clause each call appends. -/
def FilterOp.clause : FilterOp → String
  | .addProject k => "project = \"" ++ k ++ "\""
  | .addEpic k => "\"Epic Link\" = \"" ++ k ++ "\""
  | .addAssignee a => "assignee = \"" ++ a ++ "\""
  | .addStatus s => "status = \"" ++ s ++ "\""
  | .addIssueType t => "issuetype = \"" ++ t ++ "\""

/-! ## Concrete inputs for the configuration write-back scenario -/

/-- A stored configuration whose `jira` entry has an empty `url`. -/
def c10Store : ConfigStore :=
  some [("jira", .obj [("url", .str ""), ("username", .str "u"),
    ("api_token", .str "t")])]

/-- An environment supplying the Jira url. -/
def c10Env : Env := [("jira_url", "https://jira.example.com")]

/-! ## Stub clients for concrete scenarios -/

/-- A client whose every method fails (used only to populate concrete
registries in closed statements). -/
def stubJiraApi : JiraApi :=
  { create := fun _ => .error "offline",
    update := fun _ _ => .error "offline",
    delete := fun _ => .error "offline",
    create_subtask := fun _ _ => .error "offline",
    search := fun _ => .error "offline",
    get_debug_info := fun _ => .error "offline" }

/-- A Confluence client whose every method fails. -/
def stubConfluenceApi : ConfluenceApi :=
  { create := fun _ => .error "offline",
    update := fun _ _ => .error "offline",
    delete := fun _ => .error "offline",
    search := fun _ => .error "offline",
    search_by_parent := fun _ _ => .error "offline",
    get_debug_info := fun _ => .error "offline" }

/-- Concrete external collaborators built from the stub clients. -/
def stubExternal : External :=
  { mkJiraApi := fun _ _ _ => stubJiraApi,
    mkConfluenceApi := fun _ _ _ => stubConfluenceApi,
    dumps := fun _ => "" }

/-! ## Backend entries and the spec-side resolution rule -/

/-- The stored `jira` sub-dict (empty when the store is unset, the key is
absent, or the entry is not a mapping — the last case is outside the
modelled domain, see `backendEntryOk`). -/
def jiraEntry (store : ConfigStore) : PyDict :=
  match store with
  | none => []
  | some cfg =>
    match dget cfg "jira" with
    | some (.obj fs) => fs
    | _ => []

/-- The stored `confluence` sub-dict. -/
def confluenceEntry (store : ConfigStore) : PyDict :=
  match store with
  | none => []
  | some cfg =>
    match dget cfg "confluence" with
    | some (.obj fs) => fs
    | _ => []

/-- The stored entry for a backend is absent or a mapping: on this domain the
embedding of `get_jira_config` / `get_confluence_config` is faithful to the
source (a non-mapping entry would raise `AttributeError` there). -/
def backendEntryOk (store : ConfigStore) (key : String) : Bool :=
  match store with
  | none => true
  | some cfg =>
    match dget cfg key with
    | none => true
    | some (.obj _) => true
    | some _ => false

/-- The `os.getenv(lo, os.getenv(hi, dflt))` chain. -/
def envChain (env : Env) (lo hi : String) (dflt : Val) : Val :=
  match osGetenv env lo with
  | some v => .str v
  | none =>
    match osGetenv env hi with
    | some v => .str v
    | none => dflt

/-- The spec's resolution rule, written from its words for comparison with
the implementation: a backend field is its stored value when that is
non-empty, otherwise the lowercase then the uppercase environment variable
named `<backend>_<field>`. -/
def specResolvedField (env : Env) (store : ConfigStore) (dottedKey lo hi : String) :
    Val :=
  let stored := ConfigManager.get store dottedKey .null
  if pyTruthy stored then stored else envChain env lo hi stored

/-! ## Concrete configurations and tools/list helpers -/

/-- A configuration that makes the Jira backend valid. -/
def jiraOnlyConfig : PyDict :=
  [("jira", .obj [("url", .str "https://jira.example.com"),
    ("username", .str "u"), ("api_token", .str "t")])]

/-- The message `{'id': 1, 'method': 'set_config', 'params': {'config': cfg}}`. -/
def setConfigMsg (cfg : PyDict) : PyDict :=
  [("id", .num 1), ("method", .str "set_config"),
   ("params", .obj [("config", .obj cfg)])]

/-- The descriptor list inside a `tools/list` result. -/
def toolsOf (st : ServerState) : List Val :=
  match dget (MCPAtlassianServer._handle_tools_list st) "tools" with
  | some (.arr ts) => ts
  | _ => []

/-- The per-field redaction step of `get_all_config`. -/
def redactField (q : String × Val) : String × Val :=
  if q.1 ∈ ["api_token", "token", "password"] then
    (q.1, if pyTruthy q.2 then Val.str "***" else Val.str "not set")
  else q

/-- The per-service step of `get_all_config`: redact the immediate fields of a
mapping-valued entry, pass anything else through unchanged. -/
def redactService (p : String × Val) : String × Val :=
  match p.2 with
  | .obj sc => (p.1, Val.obj (sc.map redactField))
  | _ => p

/-! ## Lemmas and claim theorems -/

/-! ## Dictionary lemmas -/

theorem dget_dset_self (d : PyDict) (k : String) (v : Val) :
    dget (dset d k v) k = some v := by
  induction d with
  | nil => simp [dset, dget]
  | cons p rest ih =>
    obtain ⟨k0, w⟩ := p
    by_cases h : k0 = k
    · subst h; simp [dset, dget]
    · simp [dset, dget, h, ih]

theorem dget_dset_ne (d : PyDict) (k k2 : String) (v : Val) (h : k ≠ k2) :
    dget (dset d k v) k2 = dget d k2 := by
  induction d with
  | nil => simp [dset, dget, h]
  | cons p rest ih =>
    obtain ⟨k0, w⟩ := p
    by_cases h0 : k0 = k
    · subst h0; simp [dset, dget, h]
    · simp [dset, dget, h0, ih]

theorem pyGet_dset_self (d : PyDict) (k : String) (v : Val) :
    pyGet (dset d k v) k = v := by
  simp [pyGet, dget_dset_self]

theorem pyGet_dset_ne (d : PyDict) (k k2 : String) (v : Val) (h : k ≠ k2) :
    pyGet (dset d k v) k2 = pyGet d k2 := by
  simp [pyGet, dget_dset_ne d k k2 v h]

/-- The value a `fallbackField` step leaves at its own field. -/
theorem pyGet_fallbackField_self (env : Env) (lo hi field : String) (dflt : Val)
    (jc : PyDict) :
    pyGet (fallbackField env lo hi field dflt jc) field =
      if pyTruthy (pyGet jc field) then pyGet jc field
      else
        match osGetenv env lo with
        | some v => .str v
        | none =>
          match osGetenv env hi with
          | some v => .str v
          | none => pyGetD jc field dflt := by
  unfold fallbackField
  by_cases h : pyTruthy (pyGet jc field)
  · simp [h]
  · simp [h, pyGet_dset_self]

/-- A `fallbackField` step leaves every other field unchanged. -/
theorem pyGet_fallbackField_ne (env : Env) (lo hi field f2 : String) (dflt : Val)
    (jc : PyDict) (h : field ≠ f2) :
    pyGet (fallbackField env lo hi field dflt jc) f2 = pyGet jc f2 := by
  unfold fallbackField
  by_cases ht : pyTruthy (pyGet jc field)
  · simp [ht]
  · simp [ht, pyGet_dset_ne _ _ _ _ h]

/-! ## Claim C8: builders return the accumulated payload and clear state -/

/-- C8: for every builder (the issue and page builders share the
`RequestBuilder` state and `build`; the search-filter builder has its own) and
every accumulator state — hence after any sequence of setter calls, since the
setters only write the accumulators — `build()` returns the accumulated
payload and resets all accumulator state, so a second `build()` with no
intervening setters returns `{}`; for the search-filter builder this includes
clearing the clause list. -/
theorem builders_build_returns_and_clears (ib : JiraIssueBuilder)
    (pb : ConfluencePageBuilder) (fb : JiraFilterBuilder) :
    (RequestBuilder.build ib).1 = ib._request
    ∧ (RequestBuilder.build ib).2 = RequestBuilder.init
    ∧ (RequestBuilder.build (RequestBuilder.build ib).2).1 = []
    ∧ (RequestBuilder.build pb).1 = pb._request
    ∧ (RequestBuilder.build (RequestBuilder.build pb).2).1 = []
    ∧ (JiraFilterBuilder.build fb).2 = JiraFilterBuilder.init
    ∧ (JiraFilterBuilder.build fb).2._jql_parts = []
    ∧ (JiraFilterBuilder.build (JiraFilterBuilder.build fb).2).1 = [] :=
  ⟨rfl, rfl, rfl, rfl, rfl, rfl, rfl, rfl⟩

/-! ## Claim C9: the search-filter query string -/

theorem filterOps_jql_parts (ops : List FilterOp) (b : JiraFilterBuilder) :
    (ops.foldl FilterOp.apply b)._jql_parts
      = b._jql_parts ++ ops.map FilterOp.clause := by
  induction ops generalizing b with
  | nil => simp
  | cons op rest ih =>
    cases op <;>
      simp [FilterOp.apply, FilterOp.clause, JiraFilterBuilder.add_project,
        JiraFilterBuilder.add_epic, JiraFilterBuilder.add_assignee,
        JiraFilterBuilder.add_status, JiraFilterBuilder.add_issue_type, ih]

theorem filterOps_request (ops : List FilterOp) (b : JiraFilterBuilder) :
    (ops.foldl FilterOp.apply b)._request = b._request := by
  induction ops generalizing b with
  | nil => rfl
  | cons op rest ih =>
    cases op <;>
      simp [FilterOp.apply, JiraFilterBuilder.add_project,
        JiraFilterBuilder.add_epic, JiraFilterBuilder.add_assignee,
        JiraFilterBuilder.add_status, JiraFilterBuilder.add_issue_type, ih]

/-- C9: after any sequence of clause-adding calls (plus pagination setters),
`build()` emits a `jql` field equal to the clauses in insertion order
(duplicates retained) joined by `' AND '`; with zero clauses no `jql` field is
emitted; `maxResults` and `startAt` are separate fields of the same output,
not part of the query string. -/
theorem jira_filter_build_spec (ops : List FilterOp) (n m : Int) :
    (ops ≠ [] →
      dget (JiraFilterBuilder.build
          (((ops.foldl FilterOp.apply JiraFilterBuilder.init).set_max_results n).set_start_at m)).1
          "jql"
        = some (.str (String.intercalate " AND " (ops.map FilterOp.clause))))
    ∧ (ops = [] →
      dget (JiraFilterBuilder.build
          (((ops.foldl FilterOp.apply JiraFilterBuilder.init).set_max_results n).set_start_at m)).1
          "jql" = none)
    ∧ dget (JiraFilterBuilder.build
          (((ops.foldl FilterOp.apply JiraFilterBuilder.init).set_max_results n).set_start_at m)).1
          "maxResults" = some (.num n)
    ∧ dget (JiraFilterBuilder.build
          (((ops.foldl FilterOp.apply JiraFilterBuilder.init).set_max_results n).set_start_at m)).1
          "startAt" = some (.num m) := by
  have hparts :
      (((ops.foldl FilterOp.apply JiraFilterBuilder.init).set_max_results n).set_start_at m)._jql_parts
        = ops.map FilterOp.clause := by
    simp [JiraFilterBuilder.set_max_results, JiraFilterBuilder.set_start_at,
      filterOps_jql_parts, JiraFilterBuilder.init]
  have hreq :
      (((ops.foldl FilterOp.apply JiraFilterBuilder.init).set_max_results n).set_start_at m)._request
        = [("maxResults", .num n), ("startAt", .num m)] := by
    simp [JiraFilterBuilder.set_max_results, JiraFilterBuilder.set_start_at,
      filterOps_request, JiraFilterBuilder.init, dset]
  refine ⟨?_, ?_, ?_, ?_⟩
  · intro hne
    have hne2 : (ops.map FilterOp.clause).isEmpty = false := by
      cases ops with
      | nil => exact absurd rfl hne
      | cons a l => simp [List.isEmpty]
    simp [JiraFilterBuilder.build, hparts, hreq, hne2, dget_dset_self]
  · intro hnil
    subst hnil
    simp [JiraFilterBuilder.build, hparts, hreq, List.isEmpty, dget]
  · by_cases hne : ops = []
    · subst hne
      simp [JiraFilterBuilder.build, hparts, hreq, List.isEmpty, dget]
    · have hne2 : (ops.map FilterOp.clause).isEmpty = false := by
        cases ops with
        | nil => exact absurd rfl hne
        | cons a l => simp [List.isEmpty]
      have : ("jql" : String) ≠ "maxResults" := by decide
      simp [JiraFilterBuilder.build, hparts, hreq, hne2,
        dget_dset_ne _ _ _ _ this, dget]
  · by_cases hne : ops = []
    · subst hne
      simp [JiraFilterBuilder.build, hparts, hreq, List.isEmpty, dget]
    · have hne2 : (ops.map FilterOp.clause).isEmpty = false := by
        cases ops with
        | nil => exact absurd rfl hne
        | cons a l => simp [List.isEmpty]
      have : ("jql" : String) ≠ "startAt" := by decide
      simp [JiraFilterBuilder.build, hparts, hreq, hne2,
        dget_dset_ne _ _ _ _ this, dget]

/-- Witness for C9 at a concrete clause sequence with a duplicate clause. -/
theorem jira_filter_build_spec_witness :
    ([FilterOp.addProject "P", FilterOp.addStatus "Open", FilterOp.addProject "P"]
        ≠ ([] : List FilterOp))
    ∧ dget (JiraFilterBuilder.build
        ((([FilterOp.addProject "P", FilterOp.addStatus "Open",
            FilterOp.addProject "P"].foldl FilterOp.apply
            JiraFilterBuilder.init).set_max_results 10).set_start_at 5)).1 "jql"
      = some (.str (String.intercalate " AND "
          ([FilterOp.addProject "P", FilterOp.addStatus "Open",
            FilterOp.addProject "P"].map FilterOp.clause))) :=
  ⟨by simp,
   (jira_filter_build_spec
     [FilterOp.addProject "P", FilterOp.addStatus "Open", FilterOp.addProject "P"]
     10 5).1 (by simp)⟩

/-! ## Claim C2: a malformed line answers with the parse error and the loop
continues -/

/-- C2: for every server state, an undecodable non-blank line produces exactly
one parse-error response line (`id` null, code −32700, message `"Parse
error"`) and the loop continues unchanged, so that a subsequent well-formed
line — here `{"id": 1, "method": "ping"}` — is still read, routed, and
answered with a normal `{id, result}` response. -/
theorem run_parse_error_continues (env : Env) (ext : External) (st : ServerState)
    (raw : String) (rest : List InputLine) :
    MCPAtlassianServer.run env ext st (.malformed raw :: rest)
      = parseErrorResponse :: MCPAtlassianServer.run env ext st rest
    ∧ MCPAtlassianServer.run env ext st
        [.malformed raw, .msg [("id", .num 1), ("method", .str "ping")]]
      = [parseErrorResponse,
         mkResponse (.num 1) [("success", .bool true), ("message", .str "pong")]] :=
  ⟨rfl, rfl⟩

/-! ## Claim C10: backend-config resolution writes back into the store -/

/-- C10: resolving a backend configuration is not read-only. With a stored
`jira.url` that is empty and `jira_url` set in the environment,
`get_jira_config` writes the environment-derived value into the stored
mapping itself: afterwards `get('jira.url')` and the `get_all_config`
snapshot both observe the fallback value instead of the stored empty one. -/
theorem get_jira_config_writes_back :
    ConfigManager.get c10Store "jira.url" .null = .str ""
    ∧ ConfigManager.get (ConfigManager.get_jira_config c10Env c10Store).2
        "jira.url" .null = .str "https://jira.example.com"
    ∧ pyGet (asObjDict (pyGet
        (ConfigManager.get_all_config (ConfigManager.get_jira_config c10Env c10Store).2)
        "jira")) "url" = .str "https://jira.example.com" :=
  ⟨rfl, rfl, rfl⟩

/-! ## Claim C5: the unknown-command outcome -/

/-- Counterexample to C5 as stated: for the unhandled name `create_issue` the
chain produces the error text `"Unknown command: create_issue"` (capital `U`),
not the claimed `"unknown command: create_issue"`. -/
theorem unknown_command_capitalization :
    (HandlerChain.handle [] none (.full [] []) (.str "create_issue") []).1
      = .ok [("success", .bool false),
             ("error", .str "Unknown command: create_issue")]
    ∧ (Val.str "Unknown command: create_issue")
        ≠ .str "unknown command: create_issue" :=
  ⟨rfl, by simp⟩

/-- C5 (amended: the error text is `"Unknown command: <name>"`, with a capital
`U`): for every operation name no group handles — the system group yields no
result and neither backend dict maps the name — the chain resolves to
`{success: false, error: "Unknown command: <name>"}` with the name
interpolated, delivered as a normal application-level result (an `ok` outcome
handed back through the chain, not a raised error and not a protocol-level
error response). -/
theorem unknown_command_outcome_spec (env : Env) (store : ConfigStore)
    (jcmds : List (String × JiraCmdObj)) (ccmds : List (String × ConflCmdObj))
    (name : Val) (args : PyDict)
    (h1 : (SystemCommandHandler.tryHandle env store name args).1 = none)
    (h2 : lookupJiraCmd jcmds name = none)
    (h3 : lookupConflCmd ccmds name = none) :
    HandlerChain.handle env store (.full jcmds ccmds) name args
      = (.ok [("success", .bool false),
              ("error", .str ("Unknown command: " ++ pyStr name))],
         (SystemCommandHandler.tryHandle env store name args).2) := by
  unfold HandlerChain.handle
  simp [h1, h2, h3, unknownCommandOutcome]

/-- Witness for C5's amended theorem at the concrete name `create_issue`. -/
theorem unknown_command_outcome_spec_witness :
    HandlerChain.handle [] none
        (.full [("create_jira_issue", ⟨.create, stubJiraApi⟩)] [])
        (.str "create_issue") [("summary", .str "x")]
      = (.ok [("success", .bool false),
              ("error", .str ("Unknown command: " ++ pyStr (.str "create_issue")))],
         none) :=
  unknown_command_outcome_spec [] none
    [("create_jira_issue", ⟨.create, stubJiraApi⟩)] [] (.str "create_issue")
    [("summary", .str "x")] rfl rfl rfl

/-! ## Claim C4: the system group wins cross-group collisions -/

/-- C4: for every operation name the system group can handle (`ping`,
`health`, `config_status`, `list_commands`) and every args mapping, the full
chain returns the system group's result for arbitrary backend command dicts —
even ones that map the same name — because the chain consults the system
handler first. -/
theorem system_group_wins (env : Env) (store : ConfigStore) (args : PyDict)
    (name : Val)
    (h : name = .str "ping" ∨ name = .str "health" ∨ name = .str "config_status"
      ∨ name = .str "list_commands") :
    ∃ r, (SystemCommandHandler.tryHandle env store name args).1 = some r
      ∧ ∀ (jcmds : List (String × JiraCmdObj)) (ccmds : List (String × ConflCmdObj)),
          HandlerChain.handle env store (.full jcmds ccmds) name args
            = (.ok r, (SystemCommandHandler.tryHandle env store name args).2) := by
  rcases h with h | h | h | h <;> subst h
  · exact ⟨_, rfl, fun jcmds ccmds => rfl⟩
  · exact ⟨_, rfl, fun jcmds ccmds => rfl⟩
  · exact ⟨_, rfl, fun jcmds ccmds => rfl⟩
  · exact ⟨_, rfl, fun jcmds ccmds => rfl⟩

/-- Witness for C4: `ping` resolves to the system `pong` outcome even though a
Jira command dict also maps the name `ping`. -/
theorem system_group_wins_witness :
    HandlerChain.handle [] none
        (.full [("ping", ⟨.create, stubJiraApi⟩)] []) (.str "ping") []
      = (.ok [("success", .bool true), ("message", .str "pong")], none) := by
  obtain ⟨r, hr, hall⟩ :=
    system_group_wins [] none [] (.str "ping") (Or.inl rfl)
  have hr2 : r = [("success", .bool true), ("message", .str "pong")] := by
    have : (SystemCommandHandler.tryHandle [] none (.str "ping") []).1
        = some [("success", .bool true), ("message", .str "pong")] := rfl
    rw [this] at hr
    exact (Option.some_injective _ hr.symm)
  rw [hall [("ping", ⟨.create, stubJiraApi⟩)] [], hr2]
  rfl

/-! ## Claim C1: missing required arguments fail fast -/

theorem validate_args_of_missing (args : PyDict) (req : List String)
    (h : missingFields args req ≠ []) :
    Command.validate_args args req
      = some ("Missing required fields: "
          ++ String.intercalate ", " (missingFields args req)) := by
  unfold Command.validate_args
  have he : (missingFields args req).isEmpty = false := by
    cases hm : missingFields args req with
    | nil => exact absurd hm h
    | cons a l => rfl
  simp [he]

/-- C1: for every command and every args mapping missing (or mapping to null)
at least one declared required argument, `execute` raises one combined
`"Missing required fields: ..."` error listing all missing names in
declaration order; the result is independent of the service clients (so no
client method is invoked); and the server converts the raised error into the
single outcome `{'error': msg, 'success': False}` when the command is
dispatched through `process_message` with both backends registered. -/
theorem command_missing_required_fields (env : Env) (ext : External) (c : Cmd)
    (ja ja2 : JiraApi) (ca ca2 : ConfluenceApi) (store : ConfigStore)
    (args : PyDict) (idv : Val)
    (h : missingFields args c.requiredFields ≠ []) :
    Cmd.execute c ja ca args
      = .error ("Missing required fields: "
          ++ String.intercalate ", " (missingFields args c.requiredFields))
    ∧ Cmd.execute c ja ca args = Cmd.execute c ja2 ca2 args
    ∧ (MCPAtlassianServer.process_message env ext
        (MCPAtlassianServer._initialize_commands
          { store := store, jira_api := some ja, confluence_api := some ca,
            command_handler := .systemOnly })
        [("id", idv), ("method", .str c.name), ("params", .obj args)]).1
      = [("error", .str ("Missing required fields: "
            ++ String.intercalate ", " (missingFields args c.requiredFields))),
         ("success", .bool false)] := by
  cases c <;> simp only [Cmd.requiredFields] at h ⊢ <;>
    first
    | exact absurd rfl h
    | (have hv := validate_args_of_missing args _ h
       refine ⟨?_, ?_, ?_⟩ <;>
         simp [Cmd.execute, Cmd.name, CreateJiraIssueCommand.execute,
           UpdateJiraIssueCommand.execute, DeleteJiraIssueCommand.execute,
           CreateJiraSubtaskCommand.execute, CreateConfluencePageCommand.execute,
           UpdateConfluencePageCommand.execute, DeleteConfluencePageCommand.execute,
           SearchConfluencePagesByParentCommand.execute, hv,
           MCPAtlassianServer.process_message, MCPAtlassianServer._initialize_commands,
           HandlerChain.handle, SystemCommandHandler.tryHandle, JiraCmd.execute,
           ConflCmd.execute, lookupJiraCmd, lookupConflCmd, pyGet, pyGetD, dget,
           dmem, asObjDict])

/-- Witness for C1: `create_jira_issue` with empty args fails with all three
required names listed, independent of the clients, and the dispatched outcome
is the combined error with `success: False`. -/
theorem command_missing_required_fields_witness :
    (MCPAtlassianServer.process_message [] stubExternal
        (MCPAtlassianServer._initialize_commands
          { store := none, jira_api := some stubJiraApi,
            confluence_api := some stubConfluenceApi,
            command_handler := .systemOnly })
        [("id", .num 7), ("method", .str Cmd.createJiraIssue.name),
         ("params", .obj [])]).1
      = [("error", .str ("Missing required fields: "
            ++ String.intercalate ", " (missingFields [] Cmd.createJiraIssue.requiredFields))),
         ("success", .bool false)] :=
  (command_missing_required_fields [] stubExternal .createJiraIssue
    stubJiraApi stubJiraApi stubConfluenceApi stubConfluenceApi none [] (.num 7)
    (by simp [Cmd.requiredFields, missingFields, fieldMissing, dget])).2.2

/-! ## Claim C7: validation matches the spec's resolution rule -/

theorem cmGetLoop_single (cfg : PyDict) (k : String) (dflt : Val) :
    cmGetLoop [k] (.obj cfg) dflt
      = match dget cfg k with
        | some v => v
        | none => dflt := by
  cases h : dget cfg k with
  | none => simp [cmGetLoop, h]
  | some v => simp [cmGetLoop, h]

/-- `ConfigManager.get` at a dot-free key. -/
theorem cmGet_single (store : ConfigStore) (key : String) (dflt : Val)
    (hk : splitKey key = [key]) :
    ConfigManager.get store key dflt
      = match store with
        | none => dflt
        | some cfg =>
          match dget cfg key with
          | some v => v
          | none => dflt := by
  cases store with
  | none => rfl
  | some cfg =>
    show cmGetLoop (splitKey key) (.obj cfg) dflt = _
    rw [hk, cmGetLoop_single]

/-- `ConfigManager.get` at a two-segment key equals lookup in the first
segment's entry (read as a mapping). -/
theorem cmGet_pair (store : ConfigStore) (key k1 k2 : String)
    (hk : splitKey key = [k1, k2]) :
    ConfigManager.get store key .null
      = pyGet (match store with
          | none => []
          | some cfg =>
            match dget cfg k1 with
            | some (.obj fs) => fs
            | _ => []) k2 := by
  cases store with
  | none => rfl
  | some cfg =>
    show cmGetLoop (splitKey key) (.obj cfg) .null = _
    rw [hk]
    cases h : dget cfg k1 with
    | none => simp [cmGetLoop, h, pyGet, dget]
    | some v =>
      cases v <;> simp [cmGetLoop, h, pyGet, dget]
      cases h2 : dget _ k2 <;> simp [h2]

theorem jc0_eq_jiraEntry (store : ConfigStore) :
    (match ConfigManager.get store "jira" (.obj []) with
     | .obj fs => fs
     | _ => []) = jiraEntry store := by
  rw [cmGet_single store "jira" (.obj []) rfl]
  cases store with
  | none => rfl
  | some cfg =>
    simp only [jiraEntry]
    cases h : dget cfg "jira" with
    | none => rfl
    | some v => cases v <;> rfl

theorem cc0_eq_confluenceEntry (store : ConfigStore) :
    (match ConfigManager.get store "confluence" (.obj []) with
     | .obj fs => fs
     | _ => []) = confluenceEntry store := by
  rw [cmGet_single store "confluence" (.obj []) rfl]
  cases store with
  | none => rfl
  | some cfg =>
    simp only [confluenceEntry]
    cases h : dget cfg "confluence" with
    | none => rfl
    | some v => cases v <;> rfl

theorem dget_fallbackField_ne (env : Env) (lo hi field f2 : String) (dflt : Val)
    (jc : PyDict) (h : field ≠ f2) :
    dget (fallbackField env lo hi field dflt jc) f2 = dget jc f2 := by
  unfold fallbackField
  by_cases ht : pyTruthy (pyGet jc field)
  · simp [ht]
  · simp [ht, dget_dset_ne _ _ _ _ h]

theorem pyGetD_fallbackField_ne (env : Env) (lo hi field f2 : String)
    (dflt d2 : Val) (jc : PyDict) (h : field ≠ f2) :
    pyGetD (fallbackField env lo hi field dflt jc) f2 d2 = pyGetD jc f2 d2 := by
  simp [pyGetD, dget_fallbackField_ne env lo hi field f2 dflt jc h]

/-- The value a `fallbackField` step leaves at its own field, phrased with
`envChain`. -/
theorem pyGet_fallbackField_self_chain (env : Env) (lo hi field : String)
    (dflt : Val) (jc : PyDict) :
    pyGet (fallbackField env lo hi field dflt jc) field
      = if pyTruthy (pyGet jc field) then pyGet jc field
        else envChain env lo hi (pyGetD jc field dflt) :=
  pyGet_fallbackField_self env lo hi field dflt jc

theorem match_eq_jiraEntry (store : ConfigStore) :
    (match store with
     | none => []
     | some cfg =>
       match dget cfg "jira" with
       | some (.obj fs) => fs
       | _ => []) = jiraEntry store := by
  cases store <;> rfl

theorem match_eq_confluenceEntry (store : ConfigStore) :
    (match store with
     | none => []
     | some cfg =>
       match dget cfg "confluence" with
       | some (.obj fs) => fs
       | _ => []) = confluenceEntry store := by
  cases store <;> rfl

theorem cmGet_jira_field (store : ConfigStore) (f key : String)
    (hk : splitKey key = ["jira", f]) :
    ConfigManager.get store key .null = pyGet (jiraEntry store) f := by
  rw [cmGet_pair store key "jira" f hk, match_eq_jiraEntry]

theorem cmGet_confluence_field (store : ConfigStore) (f key : String)
    (hk : splitKey key = ["confluence", f]) :
    ConfigManager.get store key .null = pyGet (confluenceEntry store) f := by
  rw [cmGet_pair store key "confluence" f hk, match_eq_confluenceEntry]

theorem truthy_getD_empty (jc : PyDict) (f : String) :
    pyTruthy (pyGetD jc f (.str "")) = pyTruthy (pyGet jc f) := by
  cases h : dget jc f with
  | none => simp [pyGet, pyGetD, h, pyTruthy]; rfl
  | some v => simp [pyGet, pyGetD, h]

/-- What `get_jira_config` resolves at `url`. -/
theorem get_jira_config_url (env : Env) (store : ConfigStore) :
    pyGet (ConfigManager.get_jira_config env store).1 "url"
      = if pyTruthy (pyGet (jiraEntry store) "url") then pyGet (jiraEntry store) "url"
        else envChain env "jira_url" "JIRA_URL"
          (pyGetD (jiraEntry store) "url" (.str "")) := by
  unfold ConfigManager.get_jira_config
  simp only [jc0_eq_jiraEntry]
  rw [pyGet_fallbackField_ne env "jira_auth_type" "JIRA_AUTH_TYPE" "auth_type" "url"
        (.str "basic") _ (by decide),
      pyGet_fallbackField_ne env "jira_api_token" "JIRA_API_TOKEN" "api_token" "url"
        (.str "") _ (by decide),
      pyGet_fallbackField_ne env "jira_username" "JIRA_USERNAME" "username" "url"
        (.str "") _ (by decide),
      pyGet_fallbackField_self_chain]

/-- What `get_jira_config` resolves at `username`. -/
theorem get_jira_config_username (env : Env) (store : ConfigStore) :
    pyGet (ConfigManager.get_jira_config env store).1 "username"
      = if pyTruthy (pyGet (jiraEntry store) "username") then
          pyGet (jiraEntry store) "username"
        else envChain env "jira_username" "JIRA_USERNAME"
          (pyGetD (jiraEntry store) "username" (.str "")) := by
  unfold ConfigManager.get_jira_config
  simp only [jc0_eq_jiraEntry]
  rw [pyGet_fallbackField_ne env "jira_auth_type" "JIRA_AUTH_TYPE" "auth_type" "username"
        (.str "basic") _ (by decide),
      pyGet_fallbackField_ne env "jira_api_token" "JIRA_API_TOKEN" "api_token" "username"
        (.str "") _ (by decide),
      pyGet_fallbackField_self_chain,
      pyGet_fallbackField_ne env "jira_url" "JIRA_URL" "url" "username"
        (.str "") _ (by decide),
      pyGetD_fallbackField_ne env "jira_url" "JIRA_URL" "url" "username"
        (.str "") _ _ (by decide)]

/-- What `get_jira_config` resolves at `api_token`. -/
theorem get_jira_config_api_token (env : Env) (store : ConfigStore) :
    pyGet (ConfigManager.get_jira_config env store).1 "api_token"
      = if pyTruthy (pyGet (jiraEntry store) "api_token") then
          pyGet (jiraEntry store) "api_token"
        else envChain env "jira_api_token" "JIRA_API_TOKEN"
          (pyGetD (jiraEntry store) "api_token" (.str "")) := by
  unfold ConfigManager.get_jira_config
  simp only [jc0_eq_jiraEntry]
  rw [pyGet_fallbackField_ne env "jira_auth_type" "JIRA_AUTH_TYPE" "auth_type" "api_token"
        (.str "basic") _ (by decide),
      pyGet_fallbackField_self_chain,
      pyGet_fallbackField_ne env "jira_username" "JIRA_USERNAME" "username" "api_token"
        (.str "") _ (by decide),
      pyGet_fallbackField_ne env "jira_url" "JIRA_URL" "url" "api_token"
        (.str "") _ (by decide),
      pyGetD_fallbackField_ne env "jira_username" "JIRA_USERNAME" "username" "api_token"
        (.str "") _ _ (by decide),
      pyGetD_fallbackField_ne env "jira_url" "JIRA_URL" "url" "api_token"
        (.str "") _ _ (by decide)]

/-- What `get_confluence_config` resolves at `url`. -/
theorem get_confluence_config_url (env : Env) (store : ConfigStore) :
    pyGet (ConfigManager.get_confluence_config env store).1 "url"
      = if pyTruthy (pyGet (confluenceEntry store) "url") then
          pyGet (confluenceEntry store) "url"
        else envChain env "confluence_url" "CONFLUENCE_URL"
          (pyGetD (confluenceEntry store) "url" (.str "")) := by
  unfold ConfigManager.get_confluence_config
  simp only [cc0_eq_confluenceEntry]
  rw [pyGet_fallbackField_ne env "confluence_auth_type" "CONFLUENCE_AUTH_TYPE"
        "auth_type" "url" (.str "basic") _ (by decide),
      pyGet_fallbackField_ne env "confluence_api_token" "CONFLUENCE_API_TOKEN"
        "api_token" "url" (.str "") _ (by decide),
      pyGet_fallbackField_ne env "confluence_username" "CONFLUENCE_USERNAME"
        "username" "url" (.str "") _ (by decide),
      pyGet_fallbackField_self_chain]

/-- What `get_confluence_config` resolves at `username`. -/
theorem get_confluence_config_username (env : Env) (store : ConfigStore) :
    pyGet (ConfigManager.get_confluence_config env store).1 "username"
      = if pyTruthy (pyGet (confluenceEntry store) "username") then
          pyGet (confluenceEntry store) "username"
        else envChain env "confluence_username" "CONFLUENCE_USERNAME"
          (pyGetD (confluenceEntry store) "username" (.str "")) := by
  unfold ConfigManager.get_confluence_config
  simp only [cc0_eq_confluenceEntry]
  rw [pyGet_fallbackField_ne env "confluence_auth_type" "CONFLUENCE_AUTH_TYPE"
        "auth_type" "username" (.str "basic") _ (by decide),
      pyGet_fallbackField_ne env "confluence_api_token" "CONFLUENCE_API_TOKEN"
        "api_token" "username" (.str "") _ (by decide),
      pyGet_fallbackField_self_chain,
      pyGet_fallbackField_ne env "confluence_url" "CONFLUENCE_URL" "url" "username"
        (.str "") _ (by decide),
      pyGetD_fallbackField_ne env "confluence_url" "CONFLUENCE_URL" "url" "username"
        (.str "") _ _ (by decide)]

/-- What `get_confluence_config` resolves at `api_token`. -/
theorem get_confluence_config_api_token (env : Env) (store : ConfigStore) :
    pyGet (ConfigManager.get_confluence_config env store).1 "api_token"
      = if pyTruthy (pyGet (confluenceEntry store) "api_token") then
          pyGet (confluenceEntry store) "api_token"
        else envChain env "confluence_api_token" "CONFLUENCE_API_TOKEN"
          (pyGetD (confluenceEntry store) "api_token" (.str "")) := by
  unfold ConfigManager.get_confluence_config
  simp only [cc0_eq_confluenceEntry]
  rw [pyGet_fallbackField_ne env "confluence_auth_type" "CONFLUENCE_AUTH_TYPE"
        "auth_type" "api_token" (.str "basic") _ (by decide),
      pyGet_fallbackField_self_chain,
      pyGet_fallbackField_ne env "confluence_username" "CONFLUENCE_USERNAME"
        "username" "api_token" (.str "") _ (by decide),
      pyGet_fallbackField_ne env "confluence_url" "CONFLUENCE_URL" "url" "api_token"
        (.str "") _ (by decide),
      pyGetD_fallbackField_ne env "confluence_username" "CONFLUENCE_USERNAME"
        "username" "api_token" (.str "") _ _ (by decide),
      pyGetD_fallbackField_ne env "confluence_url" "CONFLUENCE_URL" "url" "api_token"
        (.str "") _ _ (by decide)]

/-- Truthiness of the resolved value is unchanged when the final fallback is
`cfg.get(f, '')` instead of `cfg.get(f)`. -/
theorem truthy_resolution_congr (env : Env) (lo hi : String) (jc : PyDict)
    (f : String) :
    pyTruthy (if pyTruthy (pyGet jc f) then pyGet jc f
      else envChain env lo hi (pyGetD jc f (.str "")))
      = pyTruthy (if pyTruthy (pyGet jc f) then pyGet jc f
          else envChain env lo hi (pyGet jc f)) := by
  by_cases ht : pyTruthy (pyGet jc f)
  · simp [ht]
  · simp only [ht, if_neg, Bool.false_eq_true, not_false_eq_true, if_false]
    unfold envChain
    cases osGetenv env lo with
    | some v => rfl
    | none =>
      cases osGetenv env hi with
      | some v => rfl
      | none => exact truthy_getD_empty jc f

theorem spec_field_jira (env : Env) (store : ConfigStore) (f key lo hi : String)
    (hk : splitKey key = ["jira", f]) :
    pyTruthy (specResolvedField env store key lo hi)
      = pyTruthy (if pyTruthy (pyGet (jiraEntry store) f) then
            pyGet (jiraEntry store) f
          else envChain env lo hi (pyGet (jiraEntry store) f)) := by
  unfold specResolvedField
  rw [cmGet_jira_field store f key hk]

theorem spec_field_confluence (env : Env) (store : ConfigStore)
    (f key lo hi : String) (hk : splitKey key = ["confluence", f]) :
    pyTruthy (specResolvedField env store key lo hi)
      = pyTruthy (if pyTruthy (pyGet (confluenceEntry store) f) then
            pyGet (confluenceEntry store) f
          else envChain env lo hi (pyGet (confluenceEntry store) f)) := by
  unfold specResolvedField
  rw [cmGet_confluence_field store f key hk]

/-- The Jira write-back does not change the `confluence` entry. -/
theorem confluenceEntry_after_jira (env : Env) (store : ConfigStore) :
    confluenceEntry (ConfigManager.get_jira_config env store).2
      = confluenceEntry store := by
  unfold ConfigManager.get_jira_config
  cases store with
  | none => rfl
  | some cfg =>
    simp only []
    cases h : dget cfg "jira" with
    | none => simp [confluenceEntry]
    | some v =>
      cases v
      case obj fs =>
        simp only [confluenceEntry]
        rw [dget_dset_ne cfg "jira" "confluence" _ (by decide)]
      all_goals rfl

/-- C7: for every environment and every stored configuration whose backend
entries are mappings (or absent — elsewhere the source raises),
`validate()` reports a backend true iff `url`, `username` and `api_token` are
all non-empty after the spec's environment-variable fallback (lowercase then
uppercase `<backend>_<field>`); `overall` is the OR of the two backend flags;
and a configuration with no stored `jira.api_token` and no environment
fallback for it validates Jira false. -/
theorem validate_configuration_matches_spec (env : Env) (store : ConfigStore)
    (_hj : backendEntryOk store "jira" = true)
    (_hc : backendEntryOk store "confluence" = true) :
    ((ConfigManager.validate_configuration env store).1.jira
      = (pyTruthy (specResolvedField env store "jira.url" "jira_url" "JIRA_URL")
         && pyTruthy (specResolvedField env store "jira.username" "jira_username"
              "JIRA_USERNAME")
         && pyTruthy (specResolvedField env store "jira.api_token" "jira_api_token"
              "JIRA_API_TOKEN")))
    ∧ ((ConfigManager.validate_configuration env store).1.confluence
      = (pyTruthy (specResolvedField env store "confluence.url" "confluence_url"
            "CONFLUENCE_URL")
         && pyTruthy (specResolvedField env store "confluence.username"
              "confluence_username" "CONFLUENCE_USERNAME")
         && pyTruthy (specResolvedField env store "confluence.api_token"
              "confluence_api_token" "CONFLUENCE_API_TOKEN")))
    ∧ ((ConfigManager.validate_configuration env store).1.overall
      = ((ConfigManager.validate_configuration env store).1.jira
         || (ConfigManager.validate_configuration env store).1.confluence))
    ∧ (ConfigManager.get store "jira.api_token" .null = .null →
       osGetenv env "jira_api_token" = none →
       osGetenv env "JIRA_API_TOKEN" = none →
       (ConfigManager.validate_configuration env store).1.jira = false) := by
  have hj1 : (ConfigManager.validate_configuration env store).1.jira
      = (pyTruthy (pyGet (ConfigManager.get_jira_config env store).1 "url")
         && pyTruthy (pyGet (ConfigManager.get_jira_config env store).1 "username")
         && pyTruthy (pyGet (ConfigManager.get_jira_config env store).1 "api_token")) :=
    rfl
  have hc1 : (ConfigManager.validate_configuration env store).1.confluence
      = (pyTruthy (pyGet (ConfigManager.get_confluence_config env
            (ConfigManager.get_jira_config env store).2).1 "url")
         && pyTruthy (pyGet (ConfigManager.get_confluence_config env
              (ConfigManager.get_jira_config env store).2).1 "username")
         && pyTruthy (pyGet (ConfigManager.get_confluence_config env
              (ConfigManager.get_jira_config env store).2).1 "api_token")) := rfl
  have e1 : pyTruthy (pyGet (ConfigManager.get_jira_config env store).1 "url")
      = pyTruthy (specResolvedField env store "jira.url" "jira_url" "JIRA_URL") := by
    rw [get_jira_config_url, truthy_resolution_congr,
      spec_field_jira env store "url" "jira.url" "jira_url" "JIRA_URL" rfl]
  have e2 : pyTruthy (pyGet (ConfigManager.get_jira_config env store).1 "username")
      = pyTruthy (specResolvedField env store "jira.username" "jira_username"
          "JIRA_USERNAME") := by
    rw [get_jira_config_username, truthy_resolution_congr,
      spec_field_jira env store "username" "jira.username" "jira_username"
        "JIRA_USERNAME" rfl]
  have e3 : pyTruthy (pyGet (ConfigManager.get_jira_config env store).1 "api_token")
      = pyTruthy (specResolvedField env store "jira.api_token" "jira_api_token"
          "JIRA_API_TOKEN") := by
    rw [get_jira_config_api_token, truthy_resolution_congr,
      spec_field_jira env store "api_token" "jira.api_token" "jira_api_token"
        "JIRA_API_TOKEN" rfl]
  have ec1 : pyTruthy (pyGet (ConfigManager.get_confluence_config env
        (ConfigManager.get_jira_config env store).2).1 "url")
      = pyTruthy (specResolvedField env store "confluence.url" "confluence_url"
          "CONFLUENCE_URL") := by
    rw [get_confluence_config_url, confluenceEntry_after_jira,
      truthy_resolution_congr,
      spec_field_confluence env store "url" "confluence.url" "confluence_url"
        "CONFLUENCE_URL" rfl]
  have ec2 : pyTruthy (pyGet (ConfigManager.get_confluence_config env
        (ConfigManager.get_jira_config env store).2).1 "username")
      = pyTruthy (specResolvedField env store "confluence.username"
          "confluence_username" "CONFLUENCE_USERNAME") := by
    rw [get_confluence_config_username, confluenceEntry_after_jira,
      truthy_resolution_congr,
      spec_field_confluence env store "username" "confluence.username"
        "confluence_username" "CONFLUENCE_USERNAME" rfl]
  have ec3 : pyTruthy (pyGet (ConfigManager.get_confluence_config env
        (ConfigManager.get_jira_config env store).2).1 "api_token")
      = pyTruthy (specResolvedField env store "confluence.api_token"
          "confluence_api_token" "CONFLUENCE_API_TOKEN") := by
    rw [get_confluence_config_api_token, confluenceEntry_after_jira,
      truthy_resolution_congr,
      spec_field_confluence env store "api_token" "confluence.api_token"
        "confluence_api_token" "CONFLUENCE_API_TOKEN" rfl]
  refine ⟨?_, ?_, rfl, ?_⟩
  · rw [hj1, e1, e2, e3]
  · rw [hc1, ec1, ec2, ec3]
  · intro h1 h2 h3
    rw [hj1, e1, e2, e3]
    simp [specResolvedField, h1, h2, h3, envChain, pyTruthy]

/-- Witness for C7 at a configuration with `url`/`username` but no
`api_token` and an empty environment: Jira validates false; adding the token
makes it true. -/
theorem validate_configuration_matches_spec_witness :
    (ConfigManager.validate_configuration []
        (some [("jira", .obj [("url", .str "https://jira.example.com"),
          ("username", .str "u")])])).1.jira = false
    ∧ (ConfigManager.validate_configuration []
        (some [("jira", .obj [("url", .str "https://jira.example.com"),
          ("username", .str "u"), ("api_token", .str "t")])])).1.jira = true := by
  constructor
  · exact (validate_configuration_matches_spec []
      (some [("jira", .obj [("url", .str "https://jira.example.com"),
        ("username", .str "u")])]) rfl rfl).2.2.2 rfl rfl rfl
  · have h := (validate_configuration_matches_spec []
      (some [("jira", .obj [("url", .str "https://jira.example.com"),
        ("username", .str "u"), ("api_token", .str "t")])]) rfl rfl).1
    rw [h]
    rfl

/-! ## Claim C3: set_config and tools/list -/

/-- Counterexample to C3 as stated: starting from a fresh server (empty
environment), `set_config` with a valid Jira configuration makes the Jira
tools appear — but a subsequent `set_config` with an empty configuration does
NOT make them disappear: the Jira client is never torn down, so `tools/list`
still returns the Jira descriptors. -/
theorem tools_list_stale_after_empty_set_config :
    toolsOf ((MCPAtlassianServer.process_message [] stubExternal
        (MCPAtlassianServer.new [] stubExternal)
        (setConfigMsg jiraOnlyConfig)).2)
      = systemTools ++ jiraTools
    ∧ toolsOf ((MCPAtlassianServer.process_message [] stubExternal
        ((MCPAtlassianServer.process_message [] stubExternal
            (MCPAtlassianServer.new [] stubExternal)
            (setConfigMsg jiraOnlyConfig)).2)
        (setConfigMsg [])).2)
      = systemTools ++ jiraTools
    ∧ ((MCPAtlassianServer.process_message [] stubExternal
        ((MCPAtlassianServer.process_message [] stubExternal
            (MCPAtlassianServer.new [] stubExternal)
            (setConfigMsg jiraOnlyConfig)).2)
        (setConfigMsg [])).2).jira_api.isSome = true
    ∧ jiraTools ≠ [] :=
  ⟨rfl, rfl, rfl, by simp [jiraTools]⟩

theorem toolsOf_includes_jira (st : ServerState)
    (h : st.jira_api.isSome = true) :
    ∀ t ∈ jiraTools, t ∈ toolsOf st := by
  intro t ht
  unfold toolsOf MCPAtlassianServer._handle_tools_list
  simp only [dget, if_pos rfl, h, if_true]
  simp [List.mem_append, ht]

theorem set_config_message_routes (env : Env) (ext : External)
    (st : ServerState) (cfg : PyDict) :
    (MCPAtlassianServer.process_message env ext st (setConfigMsg cfg)).2
      = MCPAtlassianServer._initialize_apis env ext
          { st with store := ConfigManager.set_config cfg } := by
  show (MCPAtlassianServer._handle_set_config env ext st
      (asObjDict (pyGetD (setConfigMsg cfg) "params" (.obj [])))).2
    = MCPAtlassianServer._initialize_apis env ext
        { st with store := ConfigManager.set_config cfg }
  have hp : asObjDict (pyGetD (setConfigMsg cfg) "params" (.obj []))
      = [("config", Val.obj cfg)] := rfl
  rw [hp]
  have hd : dmem [("config", Val.obj cfg)] "config" = true := rfl
  have hq : asObjDict (pyGet [("config", Val.obj cfg)] "config") = cfg := rfl
  unfold MCPAtlassianServer._handle_set_config
  simp [hd, hq]

theorem status_snd (env : Env) (store : ConfigStore)
    (h : ConfigManager.is_configured store = true) :
    (ConfigManager.get_configuration_status env store).2
      = (ConfigManager.validate_configuration env store).2 := by
  unfold ConfigManager.get_configuration_status
  simp [h]

theorem validate_snd (env : Env) (store : ConfigStore) :
    (ConfigManager.validate_configuration env store).2
      = (ConfigManager.get_confluence_config env
          (ConfigManager.get_jira_config env store).2).2 := rfl

/-- The Confluence write-back does not change the `jira` entry. -/
theorem jiraEntry_after_confluence (env : Env) (store : ConfigStore) :
    jiraEntry (ConfigManager.get_confluence_config env store).2
      = jiraEntry store := by
  unfold ConfigManager.get_confluence_config
  cases store with
  | none => rfl
  | some cfg =>
    simp only []
    cases h : dget cfg "confluence" with
    | none => simp [jiraEntry]
    | some v =>
      cases v
      case obj fs =>
        simp only [jiraEntry]
        rw [dget_dset_ne cfg "confluence" "jira" _ (by decide)]
      all_goals rfl

/-- After resolution, the stored `jira` entry is the resolved mapping. -/
theorem jiraEntry_after_jira (env : Env) (cfg : PyDict)
    (fs : List (String × Val)) (h : dget cfg "jira" = some (.obj fs)) :
    jiraEntry (ConfigManager.get_jira_config env (some cfg)).2
      = (ConfigManager.get_jira_config env (some cfg)).1 := by
  unfold jiraEntry ConfigManager.get_jira_config
  simp only [h, dget_dset_self]

theorem validate_jira_of_entry (env : Env) (store : ConfigStore)
    (hu : pyTruthy (pyGet (jiraEntry store) "url") = true)
    (hn : pyTruthy (pyGet (jiraEntry store) "username") = true)
    (ht : pyTruthy (pyGet (jiraEntry store) "api_token") = true) :
    (ConfigManager.validate_configuration env store).1.jira = true := by
  have hj1 : (ConfigManager.validate_configuration env store).1.jira
      = (pyTruthy (pyGet (ConfigManager.get_jira_config env store).1 "url")
         && pyTruthy (pyGet (ConfigManager.get_jira_config env store).1 "username")
         && pyTruthy (pyGet (ConfigManager.get_jira_config env store).1 "api_token")) :=
    rfl
  rw [hj1, get_jira_config_url, get_jira_config_username, get_jira_config_api_token]
  simp [hu, hn, ht]

/-- C3 (amended: the descriptors do not disappear). After `set_config` with a
valid Jira configuration, the Jira client is constructed and `tools/list`
includes the Jira tool descriptors; after a subsequent `set_config` with an
empty configuration — from any state whose Jira client is constructed — the
client is not torn down, so `tools/list` still includes the Jira descriptors.
The list is a pure function of currently constructed clients, but the clients
persist across configuration replacement. -/
theorem tools_list_set_config_amended (env : Env) (ext : External)
    (st st2 : ServerState) (a : JiraApi) (h2 : st2.jira_api = some a) :
    ((MCPAtlassianServer.process_message env ext st
        (setConfigMsg jiraOnlyConfig)).2.jira_api.isSome = true)
    ∧ (∀ t ∈ jiraTools, t ∈ toolsOf
        (MCPAtlassianServer.process_message env ext st
          (setConfigMsg jiraOnlyConfig)).2)
    ∧ ((MCPAtlassianServer.process_message env ext st2
        (setConfigMsg [])).2.jira_api.isSome = true)
    ∧ (∀ t ∈ jiraTools, t ∈ toolsOf
        (MCPAtlassianServer.process_message env ext st2
          (setConfigMsg [])).2) := by
  have hfull : ((MCPAtlassianServer.process_message env ext st
      (setConfigMsg jiraOnlyConfig)).2.jira_api.isSome = true) := by
    rw [set_config_message_routes]
    have hstore : ConfigManager.set_config jiraOnlyConfig = some jiraOnlyConfig := rfl
    rw [hstore]
    have he : jiraEntry (ConfigManager.get_configuration_status env
          (some jiraOnlyConfig)).2
        = (ConfigManager.get_jira_config env (some jiraOnlyConfig)).1 := by
      rw [status_snd env (some jiraOnlyConfig) rfl, validate_snd,
        jiraEntry_after_confluence,
        jiraEntry_after_jira env jiraOnlyConfig _ rfl]
    have hv : (ConfigManager.validate_configuration env
        (ConfigManager.get_configuration_status env (some jiraOnlyConfig)).2).1.jira
        = true :=
      validate_jira_of_entry env _
        (by rw [he, get_jira_config_url]; rfl)
        (by rw [he, get_jira_config_username]; rfl)
        (by rw [he, get_jira_config_api_token]; rfl)
    unfold MCPAtlassianServer._initialize_apis
    by_cases hvc : (ConfigManager.validate_configuration env
        (ConfigManager.get_configuration_status env (some jiraOnlyConfig)).2).1.confluence
        = true <;>
      simp [hv, hvc, MCPAtlassianServer._initialize_commands,
        ConfigManager.is_configured]
  have hempty : ((MCPAtlassianServer.process_message env ext st2
      (setConfigMsg [])).2.jira_api.isSome = true) := by
    rw [set_config_message_routes]
    unfold MCPAtlassianServer._initialize_apis
    by_cases hv : (ConfigManager.validate_configuration env
        (ConfigManager.get_configuration_status env (some ([] : PyDict))).2).1.jira
        = true <;>
      by_cases hvc : (ConfigManager.validate_configuration env
          (ConfigManager.get_configuration_status env (some ([] : PyDict))).2).1.confluence
          = true <;>
      simp [hv, hvc, MCPAtlassianServer._initialize_commands,
        ConfigManager.is_configured, ConfigManager.set_config, h2]
  exact ⟨hfull, toolsOf_includes_jira _ hfull, hempty,
    toolsOf_includes_jira _ hempty⟩

/-- Witness for C3's amended theorem: the concrete two-push scenario started
from a fresh server with an empty environment. -/
theorem tools_list_set_config_amended_witness :
    toolDesc "get_jira_debug_info" "Get Jira debug information" emptySchema
      ∈ toolsOf ((MCPAtlassianServer.process_message [] stubExternal
          ((MCPAtlassianServer.process_message [] stubExternal
              (MCPAtlassianServer.new [] stubExternal)
              (setConfigMsg jiraOnlyConfig)).2)
          (setConfigMsg [])).2) := by
  have h := tools_list_set_config_amended [] stubExternal
    (MCPAtlassianServer.new [] stubExternal)
    ((MCPAtlassianServer.process_message [] stubExternal
        (MCPAtlassianServer.new [] stubExternal)
        (setConfigMsg jiraOnlyConfig)).2)
    stubJiraApi rfl
  exact h.2.2.2 _ (by simp [jiraTools])

/-! ## Claim C6: the redacted snapshot -/

/-- Counterexample to C6 as stated: a stored configuration can place a field
named `api_token` where the redaction does not look — here at top level, where
the entry's value is not a mapping — and `get_all_config` then returns the raw
secret unchanged. -/
theorem get_all_config_leaks_raw_secret :
    ConfigManager.get_all_config (some [("api_token", .str "secret")])
      = [("api_token", .str "secret")]
    ∧ (Val.str "secret") ≠ .str "***"
    ∧ (Val.str "secret") ≠ .str "not set" :=
  ⟨rfl, by simp, by simp⟩

/-- `dget` through a key-preserving `map`. -/
theorem dget_map_keyfix (f : String × Val → String × Val)
    (hf : ∀ p, (f p).1 = p.1) (d : PyDict) (k : String) :
    dget (d.map f) k = (dget d k).map (fun v => (f (k, v)).2) := by
  induction d with
  | nil => rfl
  | cons p rest ih =>
    obtain ⟨k0, w⟩ := p
    cases hfw : f (k0, w) with
    | mk a b =>
      have h1 : a = k0 := by
        have h2 := hf (k0, w)
        rwa [hfw] at h2
      subst h1
      simp only [List.map_cons, hfw, dget]
      by_cases h : a = k
      · subst h
        simp [hfw]
      · simp [h, ih]

theorem get_all_config_eq_map (cfg : PyDict) :
    ConfigManager.get_all_config (some cfg) = cfg.map redactService := rfl

/-- C6 (amended: redaction applies exactly to the immediate fields of
mapping-valued top-level entries). For every stored configuration: within each
top-level entry whose value is a mapping, every immediate field named
`api_token`/`token`/`password` is replaced by `"***"` when truthy and
`"not set"` otherwise while every other immediate field passes through
unchanged; but a top-level entry whose value is not a mapping passes through
raw — so a secret-named field outside that position is not redacted (the
original claim's "never contains the raw value" fails there, see the
counterexample). -/
theorem get_all_config_redaction (cfg : PyDict) :
    (∀ s sc, dget cfg s = some (.obj sc) →
      dget (ConfigManager.get_all_config (some cfg)) s
        = some (.obj (sc.map redactField)))
    ∧ (∀ s v, dget cfg s = some v → (∀ fs, v ≠ .obj fs) →
      dget (ConfigManager.get_all_config (some cfg)) s = some v)
    ∧ (∀ (sc : PyDict) k v, k ∈ ["api_token", "token", "password"] →
      dget sc k = some v →
      dget (sc.map redactField) k
        = some (if pyTruthy v then Val.str "***" else Val.str "not set"))
    ∧ (∀ (sc : PyDict) k, k ∉ ["api_token", "token", "password"] →
      dget (sc.map redactField) k = dget sc k) := by
  have hfR : ∀ q : String × Val, (redactField q).1 = q.1 := by
    intro q
    unfold redactField
    split <;> rfl
  have hfS : ∀ p : String × Val, (redactService p).1 = p.1 := by
    intro p
    obtain ⟨s, v⟩ := p
    cases v <;> rfl
  refine ⟨?_, ?_, ?_, ?_⟩
  · intro s sc h
    rw [get_all_config_eq_map, dget_map_keyfix redactService hfS, h]
    simp [redactService]
  · intro s v h hno
    rw [get_all_config_eq_map, dget_map_keyfix redactService hfS, h]
    cases v with
    | obj fs => exact absurd rfl (hno fs)
    | str s2 => rfl
    | num n => rfl
    | bool b => rfl
    | null => rfl
    | arr xs => rfl
  · intro sc k v hk hv
    rw [dget_map_keyfix redactField hfR, hv]
    simp [redactField, hk]
  · intro sc k hk
    rw [dget_map_keyfix redactField hfR]
    cases hv : dget sc k with
    | none => rfl
    | some v => simp [redactField, hk]

/-- Witness for C6's amended theorem: a truthy `api_token` inside a mapping
entry becomes `"***"` while `url` passes through. -/
theorem get_all_config_redaction_witness :
    dget (ConfigManager.get_all_config
        (some [("jira", .obj [("api_token", .str "secret"), ("url", .str "u")])]))
        "jira"
      = some (.obj [("api_token", .str "***"), ("url", .str "u")]) := by
  have h := (get_all_config_redaction
    [("jira", .obj [("api_token", .str "secret"), ("url", .str "u")])]).1
    "jira" [("api_token", .str "secret"), ("url", .str "u")] rfl
  rw [h]
  rfl
